import Mathlib

/-!
Verification of the valve-network resource-release engine of
`src/day16/src/main.rs` (the only subsystem the specification covers in
depth).  The Rust code is shallowly embedded: `u64` bitmasks become `Nat`
with an explicit `% 2 ^ 64`, `usize` becomes `Nat`, `HashMap` indexing
becomes association-list lookup, fallible code returns `Except`, and a
Rust panic (e.g. unsigned-integer underflow, `Option::unwrap` on `None`)
is modelled as the `none` branch of an `Option` result.
-/

/- ## Open-Set (`OpenValves`, a `u64` bitmask) -/

/-- `OpenValves::open`: `self.0 | 1 << id.0` on `u64`. -/
def openValves_open (s id : Nat) : Nat :=
  (s ||| (1 <<< id)) % 2 ^ 64

/-- `OpenValves::is_open`: `(self.0 >> id.0) & 1 == 1`. -/
def openValves_is_open (s id : Nat) : Bool :=
  ((s >>> id) &&& 1) == 1

/-- `OpenValves::iter`: `(0..64).filter(|i| (self.0 >> i) & 1 == 1)`. -/
def openValves_iter (s : Nat) : List Nat :=
  (List.range 64).filter (fun i => ((s >>> i) &&& 1) == 1)

/- ## Network model -/

/-- `ValveAction`: `{ MoveTo(ValveID), Open }` (valve ids are dense `usize`
indices, embedded as `Nat`). -/
inductive ValveAction where
  | MoveTo (id : Nat)
  | Open
deriving DecidableEq, Repr

/-- `ValveNetwork`: start id, flow-rate map and adjacency map.  The two
`HashMap`s are embedded as association lists. -/
structure ValveNetwork where
  start_position : Nat
  flow_rates : List (Nat × Nat)
  edges : List (Nat × List Nat)
deriving DecidableEq, Repr

/-- `network.flow_rates[&id]` (HashMap indexing).  Rust panics when the key
is absent; the embedding totalises the lookup with default `0`.  Every
property proved below either uses a network whose maps contain all the
keys the run touches, or does not depend on the value at a missing key. -/
def flowRateOf (net : ValveNetwork) (id : Nat) : Nat :=
  (net.flow_rates.lookup id).getD 0

/-- `network.edges[&id]` (HashMap indexing, totalised with default `[]`,
same caveat as `flowRateOf`). -/
def edgesOf (net : ValveNetwork) (id : Nat) : List Nat :=
  (net.edges.lookup id).getD []

/-- Sum of the flow rates of the currently-open valves:
`open_valves.iter().map(|id| network.flow_rates[&id]).sum()`. -/
def openFlow (net : ValveNetwork) (s : Nat) : Nat :=
  ((openValves_iter s).map (flowRateOf net)).sum

namespace part1

/-- Mutable state of `part1::NetworkPlan::total_pressure_released`'s loop:
current position, open-set and running total. -/
structure SimSt where
  pos : Nat
  open_valves : Nat
  released : Nat
deriving DecidableEq, Repr

/-- One loop iteration (one tick) of
`part1::NetworkPlan::total_pressure_released`: first resolve the scheduled
action, if any — a `MoveTo` to a non-neighbour returns the error — then
add the flow of the currently-open valves to the running total. -/
def simTick (net : ValveNetwork) (st : SimSt) (act : Option ValveAction) :
    Except String SimSt :=
  let accrue : SimSt → SimSt := fun s =>
    { s with released := s.released + openFlow net s.open_valves }
  match act with
  | some (ValveAction.MoveTo v) =>
      if (edgesOf net st.pos).contains v then
        Except.ok (accrue { st with pos := v })
      else
        Except.error "Cannot move to valve from current valve"
  | some ValveAction.Open =>
      Except.ok (accrue { st with
        open_valves := openValves_open st.open_valves st.pos })
  | none => Except.ok (accrue st)

/-- `n` consecutive ticks of the loop, the first using plan index `start`
(the loop body reads `self.actions.get(minute)`). -/
def simRun (net : ValveNetwork) (plan : List ValveAction) :
    Nat → Nat → SimSt → Except String SimSt
  | _, 0, st => Except.ok st
  | start, n + 1, st =>
      (simTick net st (plan.get? start)).bind (simRun net plan (start + 1) n)

/-- `part1::NetworkPlan::total_pressure_released`.  The Rust loop is
`for minute in 0..minutes - 1` on `usize`: when `minutes = 0` the
subtraction underflows and the program panics (modelled as `none`);
otherwise the loop body runs `minutes - 1` times and the `Result` is
returned (modelled as `some`). -/
def total_pressure_released (net : ValveNetwork) (plan : List ValveAction)
    (minutes : Nat) : Option (Except String Nat) :=
  if minutes = 0 then none
  else
    some ((simRun net plan 0 (minutes - 1)
      ⟨net.start_position, 0, 0⟩).map SimSt.released)

end part1

namespace part2

/-- Mutable state of `part2::NetworkPlan::total_pressure_released`'s loop. -/
structure SimSt where
  human_position : Nat
  elephant_position : Nat
  open_valves : Nat
  released : Nat
deriving DecidableEq, Repr

/-- Resolution of the human's action inside one loop iteration of
`part2::NetworkPlan::total_pressure_released`. -/
def resolveHuman (net : ValveNetwork) (st : SimSt) (a : ValveAction) :
    Except String SimSt :=
  match a with
  | ValveAction.MoveTo v =>
      if (edgesOf net st.human_position).contains v then
        Except.ok { st with human_position := v }
      else
        Except.error "Cannot move to valve from current valve"
  | ValveAction.Open =>
      Except.ok { st with
        open_valves := openValves_open st.open_valves st.human_position }

/-- Resolution of the elephant's action (after the human's). -/
def resolveElephant (net : ValveNetwork) (st : SimSt) (a : ValveAction) :
    Except String SimSt :=
  match a with
  | ValveAction.MoveTo v =>
      if (edgesOf net st.elephant_position).contains v then
        Except.ok { st with elephant_position := v }
      else
        Except.error "Cannot move to valve from current valve"
  | ValveAction.Open =>
      Except.ok { st with
        open_valves := openValves_open st.open_valves st.elephant_position }

/-- One tick of part 2: resolve the human action, then the elephant
action, then add the flow of the currently-open valves. -/
def simTick (net : ValveNetwork) (st : SimSt)
    (act : Option (ValveAction × ValveAction)) : Except String SimSt :=
  let accrue : SimSt → SimSt := fun s =>
    { s with released := s.released + openFlow net s.open_valves }
  match act with
  | none => Except.ok (accrue st)
  | some (ha, ea) =>
      (resolveHuman net st ha).bind fun st1 =>
        (resolveElephant net st1 ea).map accrue

/-- `n` consecutive ticks of the part-2 loop starting at plan index
`start`. -/
def simRun (net : ValveNetwork) (plan : List (ValveAction × ValveAction)) :
    Nat → Nat → SimSt → Except String SimSt
  | _, 0, st => Except.ok st
  | start, n + 1, st =>
      (simTick net st (plan.get? start)).bind (simRun net plan (start + 1) n)

/-- `part2::NetworkPlan::total_pressure_released`, with the same
underflow-panic model at `minutes = 0` as part 1. -/
def total_pressure_released (net : ValveNetwork)
    (plan : List (ValveAction × ValveAction)) (minutes : Nat) :
    Option (Except String Nat) :=
  if minutes = 0 then none
  else
    some ((simRun net plan 0 (minutes - 1)
      ⟨net.start_position, net.start_position, 0, 0⟩).map SimSt.released)

/-- `part2::NetworkState`: dual-agent search state.  The owning `Rc`
parent reference becomes a nested `Option` sub-term. -/
inductive NetworkState where
  | mk (human_position : Nat) (elephant_position : Nat) (open_valves : Nat)
      (parent : Option NetworkState)
      (action : Option (ValveAction × ValveAction)) (depth : Nat)

/-- Field accessor. -/
def NetworkState.human_position : NetworkState → Nat
  | .mk h _ _ _ _ _ => h

/-- Field accessor. -/
def NetworkState.elephant_position : NetworkState → Nat
  | .mk _ e _ _ _ _ => e

/-- Field accessor. -/
def NetworkState.open_valves : NetworkState → Nat
  | .mk _ _ o _ _ _ => o

/-- Field accessor. -/
def NetworkState.parent : NetworkState → Option NetworkState
  | .mk _ _ _ p _ _ => p

/-- Field accessor. -/
def NetworkState.action : NetworkState → Option (ValveAction × ValveAction)
  | .mk _ _ _ _ a _ => a

/-- Field accessor. -/
def NetworkState.depth : NetworkState → Nat
  | .mk _ _ _ _ _ d => d

/-- The position-sorting step shared by `part2`'s `PartialEq::eq` and
`Hash::hash`: `if self.human_position < self.elephant_position
{ (human, elephant) } else { (elephant, human) }`. -/
def NetworkState.sortedPositions (s : NetworkState) : Nat × Nat :=
  if s.human_position < s.elephant_position then
    (s.human_position, s.elephant_position)
  else
    (s.elephant_position, s.human_position)

/-- `impl PartialEq for part2::NetworkState`: compares the sorted position
pairs, the open-sets and the depths (parent and action are ignored). -/
def NetworkState.stateEq (s t : NetworkState) : Bool :=
  (s.sortedPositions.1 == t.sortedPositions.1) &&
  (s.sortedPositions.2 == t.sortedPositions.2) &&
  (s.open_valves == t.open_valves) && (s.depth == t.depth)

/-- `impl Hash for part2::NetworkState` feeds the hasher, in order, the
sorted position pair, the open-set and the depth; two states fed the same
sequence receive the same hash, so the hash is embedded as that key
sequence. -/
def NetworkState.hashKey (s : NetworkState) : Nat × Nat × Nat × Nat :=
  (s.sortedPositions.1, s.sortedPositions.2, s.open_valves, s.depth)

/-- The state obtained by swapping which agent is "human" and which is
"elephant" (all other fields unchanged). -/
def NetworkState.swapAgents : NetworkState → NetworkState
  | .mk h e o p a d => .mk e h o p a d

end part2

/- ## Parsing (`ValveNetwork::from_str`) -/

/-- The identifier-to-dense-index phase of `ValveNetwork::from_str`,
taking the already-parsed line triples `(id, flow rate, tunnel targets)`
as input (the nom line parser itself `.unwrap()`s on malformed lines,
before the code this claim is about).  Faithful to lines 720–737 of
`src/day16/src/main.rs`: the distinct valve identifiers are sorted and
numbered in order; the start position is obtained by `find`ing the
literal `"AA"` followed by `Option::unwrap`, which *panics* when `"AA"`
is absent — modelled as `none`.  An `Err` return would be
`some (Except.error e)`; the function body never constructs one. -/
def fromStrParsed (lines : List (String × Nat × List String)) :
    Option (Except String ValveNetwork) :=
  let names := lines.map (fun l => l.1)
  let sortedNames := (names.dedup).insertionSort (fun a b => a < b)
  let valve_ids := sortedNames.zip (List.range sortedNames.length)
  match valve_ids.lookup "AA" with
  | none => none
  | some start =>
      some (Except.ok {
        start_position := start
        flow_rates := lines.map (fun l =>
          ((valve_ids.lookup l.1).getD 0, l.2.1))
        edges := lines.map (fun l =>
          ((valve_ids.lookup l.1).getD 0,
            l.2.2.map (fun t => (valve_ids.lookup t).getD 0))) })

/- ## Concrete fixture networks used in witnesses and counterexamples -/

/-- Two-valve fixture: the start valve `0` has flow rate `5`, valve `1`
has flow rate `0`, and the two are mutual neighbours. -/
def netA : ValveNetwork :=
  ⟨0, [(0, 5), (1, 0)], [(0, [1]), (1, [0])]⟩

/-- Two-valve fixture: the start valve `0` has flow rate `0`, valve `1`
has flow rate `5`, and the two are mutual neighbours. -/
def netB : ValveNetwork :=
  ⟨0, [(0, 0), (1, 5)], [(0, [1]), (1, [0])]⟩

/-- Discriminator for "the simulator returned normally with an `Ok`
total" (as opposed to panicking (`none`) or returning an `Err`). -/
def isOkResult : Option (Except String Nat) → Bool
  | some (Except.ok _) => true
  | _ => false

/- ## Single-agent search engine (`part1::NetworkState`, `expand`,
`backtrack`, `solve`) -/

namespace part1

/-- `part1::NetworkState`: single-agent search state; the owning `Rc`
parent reference becomes a nested `Option` sub-term. -/
inductive NetworkState where
  | mk (current_position : Nat) (open_valves : Nat)
      (parent : Option NetworkState) (action : Option ValveAction)
      (depth : Nat)

/-- Field accessor. -/
def NetworkState.current_position : NetworkState → Nat
  | .mk c _ _ _ _ => c

/-- Field accessor. -/
def NetworkState.open_valves : NetworkState → Nat
  | .mk _ o _ _ _ => o

/-- Field accessor. -/
def NetworkState.parent : NetworkState → Option NetworkState
  | .mk _ _ p _ _ => p

/-- Field accessor. -/
def NetworkState.action : NetworkState → Option ValveAction
  | .mk _ _ _ a _ => a

/-- Field accessor. -/
def NetworkState.depth : NetworkState → Nat
  | .mk _ _ _ _ d => d

/-- The initial search state of `part1::NetworkPlan::solve`:
start position, empty open-set, no parent, no action, depth 0. -/
def initialState (net : ValveNetwork) : NetworkState :=
  .mk net.start_position 0 none none 0

/-- `part1::NetworkState::expand`: the Open child first — generated only
when the current valve is not already open *and* has positive flow —
then one MoveTo child per neighbour, each at `depth + 1` with the parent
link set. -/
def expand (parent : NetworkState) (net : ValveNetwork) :
    List NetworkState :=
  (if !(openValves_is_open parent.open_valves parent.current_position) &&
      decide (0 < flowRateOf net parent.current_position) then
    [NetworkState.mk parent.current_position
      (openValves_open parent.open_valves parent.current_position)
      (some parent) (some ValveAction.Open) (parent.depth + 1)]
  else []) ++
  (edgesOf net parent.current_position).map (fun loc =>
    NetworkState.mk loc parent.open_valves (some parent)
      (some (ValveAction.MoveTo loc)) (parent.depth + 1))

/-- The root-to-state action list recovered by walking parent links:
`part1::NetworkState::backtrack` pushes the state's own action
(`unwrap`ing it — only the root has `none`, on which backtrack would
panic), then each ancestor's action when present, and reverses.  On
every state with an action the two agree; on the root `actionChain`
returns `[]`. -/
def NetworkState.actionChain : NetworkState → List ValveAction
  | .mk _ _ none a _ => a.toList
  | .mk _ _ (some p) a _ => actionChain p ++ a.toList

/-- `part1::NetworkState::total_pressure_released`: backtrack the action
history and resimulate over the full horizon, `.unwrap()`ing the result.
For expand-generated states every move is to a neighbour, so the
simulation never fails and the unwrap never panics; `0` stands in on the
two unreachable panic branches. -/
def stateScore (net : ValveNetwork) (s : NetworkState) (minutes : Nat) :
    Nat :=
  match part1.total_pressure_released net s.actionChain minutes with
  | some (Except.ok r) => r
  | _ => 0

/-- The states the breadth-first loop of `part1::NetworkPlan::solve` can
generate: the initial state, and every `expand` child of a generated
state. -/
inductive Reaches (net : ValveNetwork) : NetworkState → Prop where
  | init : Reaches net (initialState net)
  | step {p c : NetworkState} : Reaches net p → c ∈ expand p net →
      Reaches net c

/-- Model of the value returned by `part1::NetworkPlan::solve`: the
backtracked action chain of a generated state with
`depth == action_count` whose resimulated score is maximal among all
such states.  (`solve` takes the maximum over its memo cache; since a
child pruned for not strictly beating the cache shares its canonical
`(position, open-set, depth)` key — and hence both its accumulated score
and its exact future continuations — with the retained entry, the
maximal cached score at `depth == action_count` is the maximal score
over all expand-reachable states of that depth.) -/
def SolveReturns (net : ValveNetwork) (action_count minutes : Nat)
    (plan : List ValveAction) : Prop :=
  ∃ s, Reaches net s ∧ s.depth = action_count ∧ plan = s.actionChain ∧
    ∀ s', Reaches net s' → s'.depth = action_count →
      stateScore net s' minutes ≤ stateScore net s minutes

/-- The child state `expand` builds for a given action of the parent. -/
def mkChild (p : NetworkState) (a : ValveAction) : NetworkState :=
  match a with
  | ValveAction.MoveTo v =>
      .mk v p.open_valves (some p) (some a) (p.depth + 1)
  | ValveAction.Open =>
      .mk p.current_position
        (openValves_open p.open_valves p.current_position) (some p)
        (some a) (p.depth + 1)

/-- The state reached by expanding a whole action list from the initial
state. -/
def chainOf (net : ValveNetwork) (acts : List ValveAction) : NetworkState :=
  acts.foldl mkChild (initialState net)

end part1

/- ## Dual-agent search engine (`part2::NetworkState::expand`,
`backtrack`, `solve`) -/

namespace part2

/-- The initial search state of `part2::NetworkPlan::solve`: both agents
at the start position, empty open-set, no parent, no action, depth 0. -/
def initialState (net : ValveNetwork) : NetworkState :=
  .mk net.start_position net.start_position 0 none none 0

/-- `part2::NetworkState::possible_actions_from`: an Open command (when
the valve at `current_position` is closed and has positive flow)
followed by one MoveTo per neighbour. -/
def possible_actions_from (parent : NetworkState) (net : ValveNetwork)
    (current_position : Nat) : List ValveAction :=
  (if !(openValves_is_open parent.open_valves current_position) &&
      decide (0 < flowRateOf net current_position) then
    [ValveAction.Open]
  else []) ++
  (edgesOf net current_position).map (fun loc => ValveAction.MoveTo loc)

/-- `part2::NetworkState::expand`: all combinations of the two agents'
possible actions (`Itertools::cartesian_product`, embedded as
`bind`/`map`), excluding a simultaneous double-open of the same
co-located valve; each child carries the action pair, `depth + 1`, the
moved-to positions, the parent link, and the open-set with the human's
open applied before the elephant's. -/
def expand (parent : NetworkState) (net : ValveNetwork) :
    List NetworkState :=
  ((possible_actions_from parent net parent.human_position).bind
    (fun ha =>
      (possible_actions_from parent net parent.elephant_position).map
        (fun ea => (ha, ea)))).filterMap
    (fun hea =>
      if hea.1 = ValveAction.Open ∧ hea.2 = ValveAction.Open ∧
          parent.human_position = parent.elephant_position then
        none
      else
        some (NetworkState.mk
          (match hea.1 with
           | ValveAction.MoveTo position => position
           | _ => parent.human_position)
          (match hea.2 with
           | ValveAction.MoveTo position => position
           | _ => parent.elephant_position)
          (if hea.2 = ValveAction.Open then
            openValves_open
              (if hea.1 = ValveAction.Open then
                openValves_open parent.open_valves parent.human_position
              else parent.open_valves)
              parent.elephant_position
          else
            if hea.1 = ValveAction.Open then
              openValves_open parent.open_valves parent.human_position
            else parent.open_valves)
          (some parent) (some hea) (parent.depth + 1)))

/-- The root-to-state action-pair list recovered by walking parent links
(`part2::NetworkState::backtrack`, the same construction as in part 1:
the Rust function `unwrap`s the top state's action, so it panics on the
root, where `actionChain` returns `[]`; on every other state the two
agree). -/
def NetworkState.actionChain :
    NetworkState → List (ValveAction × ValveAction)
  | .mk _ _ _ none a _ => a.toList
  | .mk _ _ _ (some p) a _ => actionChain p ++ a.toList

/-- The states the best-first loop of `part2::NetworkPlan::solve` can
generate: the initial state, and every `expand` child of a generated
state. -/
inductive Reaches (net : ValveNetwork) : NetworkState → Prop where
  | init : Reaches net (initialState net)
  | step {p c : NetworkState} : Reaches net p → c ∈ expand p net →
      Reaches net c

/-- Model of the value returned by `part2::NetworkPlan::solve`: the
backtracked action chain of a generated state with
`depth == action_count` (`solve` filters its memo cache for that depth
and backtracks the best entry).  Unlike part 1, no score-maximality
clause is included: the heuristic depth-window pruning gives no
optimality guarantee — but every plan the engine returns is still the
backtracked chain of a cached, hence generated, terminal state. -/
def SolveReturns (net : ValveNetwork) (action_count : Nat)
    (plan : List (ValveAction × ValveAction)) : Prop :=
  ∃ s, Reaches net s ∧ s.depth = action_count ∧ plan = s.actionChain

end part2

/- ## Execution-legality predicates over action lists -/

/-- `legalFrom net pos o acts`: executed from position `pos` with
open-set `o`, every action of `acts` satisfies the expansion invariants:
each `MoveTo` targets a neighbour of the current position, and each
`Open` is of a not-yet-open valve with positive flow. -/
def legalFrom (net : ValveNetwork) : Nat → Nat → List ValveAction → Bool
  | _, _, [] => true
  | pos, o, ValveAction.MoveTo v :: rest =>
      (edgesOf net pos).contains v && legalFrom net v o rest
  | pos, o, ValveAction.Open :: rest =>
      !(openValves_is_open o pos) && decide (0 < flowRateOf net pos) &&
        legalFrom net pos (openValves_open o pos) rest

/-- `goodOpens net pos o acts`: executed from `(pos, o)`, no `Open` of
`acts` is performed at an already-open valve or at a valve with flow
rate 0 (the move legality is not constrained). -/
def goodOpens (net : ValveNetwork) : Nat → Nat → List ValveAction → Bool
  | _, _, [] => true
  | _, o, ValveAction.MoveTo v :: rest => goodOpens net v o rest
  | pos, o, ValveAction.Open :: rest =>
      !(openValves_is_open o pos) && decide (0 < flowRateOf net pos) &&
        goodOpens net pos (openValves_open o pos) rest

/-- Position and open-set after executing an action list (no legality
checks; mirrors how `expand` threads the state). -/
def runTrack : Nat → Nat → List ValveAction → Nat × Nat
  | pos, o, [] => (pos, o)
  | _, o, ValveAction.MoveTo v :: rest => runTrack v o rest
  | pos, o, ValveAction.Open :: rest =>
      runTrack pos (openValves_open o pos) rest

/- ## Degenerate single-valve fixture -/

/-- One-valve fixture: valve `0` with flow rate `0` and a self-loop; the
only expandable action is `MoveTo 0`, and every score is 0. -/
def netZ : ValveNetwork := ⟨0, [(0, 0)], [(0, [0])]⟩

/- ## The canonical reference network and plans (claim C2) -/

/-- Modelled from the spec: the reference scenario's "canonical small
network" is read by the tests from `sample.txt`, which is not under
`src/`; the valves, published flow rates and tunnel lists are the
canonical published example (AA:0 → DD,II,BB; BB:13 → CC,AA;
CC:2 → DD,BB; DD:20 → CC,AA,EE; EE:3 → DD,FF; FF:0 → EE,GG;
GG:0 → FF,HH; HH:22 → GG; II:0 → AA,JJ; JJ:21 → II), with identifiers
mapped to dense indices 0–9 in sorted order exactly as
`ValveNetwork::from_str` does — consistent with the index-level plans
hard-coded in the in-`src/` tests. -/
def sampleNet : ValveNetwork :=
  ⟨0,
   [(0, 0), (1, 13), (2, 2), (3, 20), (4, 3), (5, 0), (6, 0), (7, 22),
    (8, 0), (9, 21)],
   [(0, [3, 8, 1]), (1, [2, 0]), (2, [3, 1]), (3, [2, 0, 4]), (4, [3, 5]),
    (5, [4, 6]), (6, [5, 7]), (7, [6]), (8, [0, 9]), (9, [8])]⟩

/-- The 24-action single-agent reference plan hard-coded in
`part1::test_with_sample::get_sample_plan`. -/
def samplePlanPart1 : List ValveAction :=
  [ValveAction.MoveTo 3, ValveAction.Open, ValveAction.MoveTo 2,
   ValveAction.MoveTo 1, ValveAction.Open, ValveAction.MoveTo 0,
   ValveAction.MoveTo 8, ValveAction.MoveTo 9, ValveAction.Open,
   ValveAction.MoveTo 8, ValveAction.MoveTo 0, ValveAction.MoveTo 3,
   ValveAction.MoveTo 4, ValveAction.MoveTo 5, ValveAction.MoveTo 6,
   ValveAction.MoveTo 7, ValveAction.Open, ValveAction.MoveTo 6,
   ValveAction.MoveTo 5, ValveAction.MoveTo 4, ValveAction.Open,
   ValveAction.MoveTo 3, ValveAction.MoveTo 2, ValveAction.Open]

/-- The reference plan extended with six legal shuttling moves
(CC ↔ DD) to a full 30-action terminal chain; the extension opens
nothing, so its simulated score at horizon 30 is still 1651. -/
def sampleBestActs : List ValveAction :=
  samplePlanPart1 ++
    [ValveAction.MoveTo 3, ValveAction.MoveTo 2, ValveAction.MoveTo 3,
     ValveAction.MoveTo 2, ValveAction.MoveTo 3, ValveAction.MoveTo 2]

/-- The known-good 11-tick dual-agent action sequence hard-coded in
`part2::test_with_sample::get_sample_plan` (letters translated to dense
indices: A=0, …, J=9). -/
def samplePlanPart2 : List (ValveAction × ValveAction) :=
  [(ValveAction.MoveTo 8, ValveAction.MoveTo 3),
   (ValveAction.MoveTo 9, ValveAction.Open),
   (ValveAction.Open, ValveAction.MoveTo 4),
   (ValveAction.MoveTo 8, ValveAction.MoveTo 5),
   (ValveAction.MoveTo 0, ValveAction.MoveTo 6),
   (ValveAction.MoveTo 1, ValveAction.MoveTo 7),
   (ValveAction.Open, ValveAction.Open),
   (ValveAction.MoveTo 2, ValveAction.MoveTo 6),
   (ValveAction.Open, ValveAction.MoveTo 5),
   (ValveAction.Open, ValveAction.MoveTo 4),
   (ValveAction.Open, ValveAction.Open)]

/- ## An upper-bound table for the single-agent search on `sampleNet`

The six positive-flow valves of `sampleNet` are 1, 2, 3, 4, 7, 9
(bitmask 670).  A reachable open-set is always a subset of these six
bits; `encodeMask`/`spread` compress such a mask to a 6-bit index and
back.  `btab t` packs, in 16-bit fields indexed by
`position * 64 + compressed mask`, an upper bound on the resource any
expansion-legal action sequence can release in `t` remaining ticks from
that position and open-set (each tick: stay, open if legal, or move to a
neighbour, then accrue the open flow).  These tables are a verification
device, not part of the source program. -/

/-- Decompression of a 6-bit index to an open-set over valves
1, 2, 3, 4, 7, 9. -/
def spread (e : Nat) : Nat :=
  (e &&& 1) * 2 + ((e >>> 1) &&& 1) * 4 + ((e >>> 2) &&& 1) * 8 +
  ((e >>> 3) &&& 1) * 16 + ((e >>> 4) &&& 1) * 128 + ((e >>> 5) &&& 1) * 512

/-- Compression of an open-set over valves 1, 2, 3, 4, 7, 9 to a 6-bit
index. -/
def encodeMask (m : Nat) : Nat :=
  ((m >>> 1) &&& 1) + ((m >>> 2) &&& 1) * 2 + ((m >>> 3) &&& 1) * 4 +
  ((m >>> 4) &&& 1) * 8 + ((m >>> 7) &&& 1) * 16 + ((m >>> 9) &&& 1) * 32

/-- 16-bit field extraction from a packed table. -/
def field16 (T i : Nat) : Nat := T / 65536 ^ i % 65536

/-- Packing a list of 16-bit values into one number, entry `i` in field
`i`. -/
def pack16 (l : List Nat) : Nat := l.foldr (fun x acc => x + acc * 65536) 0

/-- `openFlow sampleNet (spread e)`, precomputed for the 64 compressed
masks and packed in 16-bit fields. -/
def flowTab : Nat := 222190871031337716419270068721859390275161054466998488748249517113894894302270611560377239389862554903380470972784412150779226958286195549534806265846773384324151620349206354138978435483091181900448885706021712304413781278367904290321164988424632576703237650138141760595135463803607981075989890892462620672

/-- Total open flow of the compressed mask `e` on `sampleNet`. -/
def flowE (e : Nat) : Nat := field16 flowTab e

/-- One Bellman backup for entry `i = pos * 64 + e` of the bound table:
the best of (stay), (open the current valve when the expansion guard
holds) and (move to a neighbour), each followed by accruing the flow of
the resulting open-set, on top of the previous table `T`. -/
def bEntry (T i : Nat) : Nat :=
  ((flowE (i % 64) + field16 T i) ::
    ((if !(openValves_is_open (spread (i % 64)) (i / 64)) &&
        decide (0 < flowRateOf sampleNet (i / 64)) then
      [flowE (encodeMask (openValves_open (spread (i % 64)) (i / 64))) +
        field16 T ((i / 64) * 64 +
          encodeMask (openValves_open (spread (i % 64)) (i / 64)))]
    else []) ++
    (edgesOf sampleNet (i / 64)).map (fun v =>
      flowE (i % 64) + field16 T (v * 64 + i % 64)))).foldr Nat.max 0

/-- One full backup sweep over the 640 entries. -/
def bStep (T : Nat) : Nat := pack16 ((List.range 640).map (bEntry T))

/-- The bound table after `t` backups: `field16 (btab t) (pos * 64 + e)`
bounds the release achievable in `t` ticks from `pos` with compressed
open-set `e`. -/
def btab : Nat → Nat
  | 0 => 0
  | t + 1 => bStep (btab t)

/- ## Precomputed literal values of the bound tables

The 29 packed tables are given as literals so that each backup sweep is
checked by one small kernel computation (`bStep` applied to one literal)
instead of one huge nested evaluation. -/

/-- Literal value of the bound table after 1 backups. -/
def btabL1 : Nat := 43567862235670831503158383192299437142518519278137644778967140803199690053408895907865805683215133004691125242845637075604130162284848209117657952104603076776491990198068842828595788019284515267620013876521545856638334211180590749878226143368047183381031677927731634905205805436694972244966710390866779325745765903811351243755252836506809023249947843377286664600577888134619495901737819357520167215979141776895486500394385224657178392791750648753961499033537507365818466783529057298753515855708644963963817033544566312921843611329940089797998767015305889748514019167345194455734928024468301692688365196807324593054817946112803428212658751609133227918353272141089983104602104921885296676280154173571899226956999436453364737443635244604516616336140833147818315617815177709237501902821958755023135509190642081982425417640060697228967748160076727401980858756957768548742480646845110923996118167717189978416850128261055345170057250635237346134175928219181333475038113713416315626179815389257509011416099696022148788502684807250867853346937827234368885951335810479775291860444796341643381522008596502833660637571548348056147573896335306898646210007935574266206930101869364526002725212525217142995271612700608934637262307902734484387827720819781416998373246159218840930885292778634970875115842742057405110941516357899181133877714750967412747512537403385044341158994386404724521677187764961429896348171084108426534845099888806938914747653760865889236312536730704493638195852511520835370787456345877906648259752620336002033422546542212386991119399835360786668788728747882096631547319697166550804591608984317016465321896501981223942286428169364857383981711315923133999058900035603313074746398858732422215058185609323922881847849653169247893202446917548665567221311382173125791449889831636938262021399608310530177984890135442607402449331988926532780015386794763905287869806817125708019305472787900716467144347494189605392513003628879155919369413534838528747398326581647694218613415597950993716912676130334589982855117441348464546139995846988499792363708800864998402959322629017859417232228535313852194590884962222046907094678356945562737333014706991250063468003666716812031630502051719274732809725892896935152814345083719624053186468016416743472167747774723060011234006453343319479473960735328797599207654794110361937989038770898868531026781507758486089123520269610915298448027714946602320748042030234387852469159175568202801308071265187791876622849998734579068796641708858589086145369775410426286108731187362571148852491143666627509911163370058653515062901012457137487284725272667172771574359015726765915220483550787063820616935764766508054343951835129317214588768457090637616933260455540387265131961233858631272164317690268120548283533025112199653190296382044065716729587244828992525738429065262190625779291489077309118210801107711027348436923729738597453744973745739542439326767903815556139958906266436476111816942972440622510365869415702056726415773098503243006130754361003417921400933521387238519861598560763635796110390023913080921497758664567560435247628205846721548760437209049137152

/-- Literal value of the bound table after 2 backups. -/
def btabL2 : Nat := 87135724471341663006316766384598874285037038556275289557934281606399380106817791815731611366430266009382250485691274151208260324569696418235315904209206153552983980396137685657191576038569030535240027753043091713276668422361181499756452286736094366762063355855463269810411610873389944489933420781733558651491531807622702487510505673013618046499895686754573329201155776269238991803475638715040334431958283553790973000788770449314356785583501297507922998067075014736323213746334688540323392028114610697072734744355625483390075246234896068222349602762165749391593126690342162063739583140606040022977039135702007231931813767368164243048588326137569874763992918394559179572504590132947222648773990471437599797343692867946535232787254047306118631957245595447177317264051774597640709063260920758660959392947407040236479828038613042724454661910109427232041840263699452207260028474634997713334277127519023616359468971067152799169939690754058683461581516041123475384554737042044390579850847099351190587645912068521506201980100366348108018096650729764879330282695890247037483464719690776607067336151925756836195637634389704304720079052899627251246880848519674800607671318314356055159056636492799580349248538896064109281810497185450497084247607090636167775289302287651528538888471134818203498271720084903769215502251785717150905979183982453970533342022666112488301447768445496655500266548929555492558280434433734643841705576100442681743116698375386851169147363111783234353805181249822523694896368616061567957162697198688554267897531680606516795512144621626875264518392518689525405149161678587445084235693340896917153129058336262111770865565842781331481654165645649340703177207578276125428880690585475240441003227658627001160824243014056285069676477461409083174139470952363335704593440777560021541552026447064147833375267713176980656583799442074748881144180999326551488419740296432076065080853203033635574215912135882383575321774262016786957131219875508576599435761653448337580034554738272844226284375559629475263189393792800672661209171797563367651702298341784216421528957754058463421189742360822776627304169681257603680489358167874749537873362766682798650158839559144271390921125673312601343003114277913160569314659404507157026749919783734501327139988351472038120307390442986263036813949874597006406912088315670839431778303217189291373988059195043565551522193394153254345369288631331663950408762764468258395583249720916205751091133832762115641049660016913051331652022902144574234179949875730246518559490223266833943905020011714699075205202969903743390900717374034696153296691707843376794629555381404756700352918146915085034715008180009249368453007365029398824848969085262312964487170375311843079997216880381088559263717451174648040666666265225077581682650517445491031695028281890260383994474199810821360765909591693332871294265526577526816363816658891402786358601213617443803298369671374637075079364164609040576465110558679472628518980825407101160578906464069806986064837206969360571553367444918267759361283815922108919102045131624956559388766665669122952469178287172137256474974633793028116

/-- Literal value of the bound table after 3 backups. -/
def btabL3 : Nat := 130703586707012494509475149576898311427555557834412934336901422409599070160226687723597417049645399014073375728536911226812390486854544627352973856313809230329475970594206528485787364057853545802860041629564637569915002633541772249634678430104141550143095033783194904715617416310084916734900131172600337977237297712027557567445022489554092695905223415550123225199845663423620914877538776329806256373659165431518226136884419603194519078002102783586630288714833452113768065209568381498232594097167985150889177291662026595525467275873723991161658294542415801749221788233094333577602699770601141193361061968915734164713099440557907189402302212680630864417746652595269490505865350164207239470148086232608566387269338084660714826534722693784197825476820628470839662242198443927151996522779336464418266929982340650833073244673131841029809062839441362686642935933271566443501017168899842423335618029571611727170155489823416540812939352222163454797363368760764168310205279183199737230352060598429763948771546411425287846491346124493249227221844511355524597500831853719941664495263538392714965734363523735570578421271364417649740049381721875957141116408133335379722405244938247195509153471163417381129071743918710385313653450871630471947320177997015394383047102456695840206045343146803148216624337755201341363988188936469177246803264020464703680204580847562411289117470985916698778891166620406596219074937011617587013923131214123637419327116924364578034544454554094280153331924063366542496295673420324185653290645453312187939559459056430813903905557793852706665581561896063411037883902986538183332484424526974301677264011301773446786971393606427473288760851719808852119303424972659673750108786186274886601597484320599759472971493176366918399560726055166634999856280672890786483551451638699401308036901240205462162670892844118290117796358258689585619239443636348052061595628318904143078631582469917112060390283657045083133413707337768456215165199595152451959727492586130225084301274988507630170700424305312435887884763110496017212098099609473767811801403904217998036891829813587029329635870508772906491916641104147068256032826683417672163959183560267676781729803255745595634440100637048654086485238051784958920492331064181223961298998594707798182270436573711429115149466674564685605554260561545587046077144228249357480544469588465448026880024416151221700068505517896130203094956888478758183723221458563793170258259532777620690672122850730596354313217987733612425283244460081404232914020842589357605438642679690287681523427025964470275965856180546030156736010494338293561914923812542833460835358337467598340513325145659374048747206763001181957326630482095524991427543951367652622105587580267303831843096060508719770292321832899386191991855914233431013216258190090189668317430809435953272775121728552938038847496219107760197212846151250469522914127910842711244942438363848112149693069877375561137275927439365578992683159372808949267148706447061259361985054254282615262065468068439737476242295780898649321803494848118897429210121110172740282362404038117425303860846230702563732163640123739537448

/-- Literal value of the bound table after 4 backups. -/
def btabL4 : Nat := 174271555636460507403778464347262449093444016334328943923341454665377481710958852322413195622473036845198776997833704333269832745069018998811152162772240573643758468996510802282530159114057048274732209505460249193893569735137725360276001274536077053833150889228412161690156884756894634623214423326444207486728371614152532112298057928745847528230076954131502731824839861188024148625104971266656173636426329403004924575034591293226151429608917254647706680006595659418956496389184852561032015885567008949754421460307567867701776778282732779494091111989866029318608409478862412719634038817757706699535659737146376482502937382241670637553331606095643080516982692560996730883190812808836956725356452910319016857781648383397836628163392630996308365852883008887146325997577623982482762811854719354889172036962608181300501276212423276879259507731624352825378634718020241050456433544871919864988939619971418522343996612989827430520678520005889355095095192702006040582694774182005617538294660024423701840454617222812674957893804192958808110899231687108717978576557203716388078624551489217274615156185046555301675262314039515773050383833847642970202223196507312844823243391012716281819633597466471012669841431835894937083224456288434641962859730385459945236190697313484971110906382187354860619073842533092356303724342830461054283957736338246596852456135022409419746932156773668309043550876656509435087968673199781415538467953189060176071213711748489253713754592165176008449833628727648431964827334232920094196757188691147523881597415912068208092585210629404425688539210491920518480566686183965381607097939958985524176147182134733986642617071518765731593391297196958762277890304451870668720938198997739788916847178340758179018844497063995685126458887606125934469129391688977985592532579447781304738950779197995674659322752313907267835663994532689432446007789824224852620902548175815142858351593051277651238587454614470220877969818053406284140325297199112905776364914453854735719736172362509603938148120941907030842327327924097743336847061513737510788778283031366584892791890024976219210764588906208754663494202270018750109927482746709560270015467776187637793371376329643019798079193557781943438100061576958003311426584002110236569109278558592921254690092228673563687900581327748113508197467292913840744871674672142916233214648378988801449621381622605813370960485320648628256906793712604376381098461173748791205159148091970869402325621005542888620553102599269003522993632479346020100887423171828114506082265781551677515929854422101625151207870783109338670574253200436839569828481914239257949167201436243406819055339626606390122143020901462690683544122752170694228658564498508182377527912756401614416346181113619490878901584279561156037798251021577658564907579817725024208147693918744228286383746307644823085947794015392835348996970634608297701942696705520461747403407777312847475293841551733395546316392963936773719998409567010487586666101047855737993965702894202360567048444605754275994008798224539978716748884336067245011494961851499405377840331379610416645064015762966781567082198618451673151

/-- Literal value of the bound table after 5 backups. -/
def btabL5 : Nat := 217839524566158984581145342493142698723070815499574278241599761150867392001317811464298644958313662949928811224313545834725245791491649041644591972093958186267138301474599502053535934728377314064320513768761998948799651526533072085293206117150839378770128692239120265455306141890657971908505561019393809796597587358927616074818350136174795619159948740420808428422525296781045360620579157534677674763816671115767915787563106156980617462737004800381773054794009027613299994641896308152980707261844831007058457553017708054957720745054203037212099621387672968667216290580001480027393788906751395818500134097344479035519206393642626038032299122092303822917493629073974024487189024358628474131222344502680210295356310133811695609299091778286200217092220416666109496581725810763682644699294232804142383055394068863517575337184617431767880404382924812765020227335432950759992272813813167744324468838343821461195088260369851021773840072012989118006775155515687650885606192669486008366091798350674644401407935249416710460638216130623611234999504893690118765808190442515643577168224787679692812349284919975694194562818312774586217790986853458829433597898587437397661095141337580946372218838260786501747159115187786792576242641031772879110841167287764749421918263445335038378867791071103239418100195411422987588922016419345665577557635435405090025460109337686389244906925738513928446124967021906199511298680780345969030984288169147898416449499049080644756816432887505404140644220268965954165806624806527347808401070184649158850942380413104041379341888935826292472443931120892721412185423588760389348728021920617738137763186128206894706469111098956660849297008009288334091371956109323180799321834407611534837980922328982256439469179409118957766095547236683796720908225602507173364489479661059661713689109325070675747375572853650526628807433341026872375673305298850607762013639476490546977605788840216927072059548244999298811663780995298141329740995185005284017839662714814898965929679424307801091417668537180810403703329817450902882367168853127280100020399174389033558680819290455033919436460319028804014825793778193658722197994404325523535393924179209372028488918102112643626702135871197539523788202861731216001123824040659252482130783460603131556659958661819587650122191541658290841332566456793833076231685650905510361994184920204840127929661672381037279275061616858618823801094565701693189336158729218896810254037120065505356733495521414354867849967807050337408787701106892051287793718731671299314859140327271868770918062145557958940469702260718410348344573617684466788219883218243215899071187691598280712941439859399710650383683474586721411030432466241857869041010457630836100656705257964484602989390588853845690094390791300888511177712273822910022216692285050898026357414789587691233578825251330528705808212605008374992195008028335076202017050803166683367872088347287664632854008427359599540219820719375459784942396640070887369795696037206812266853100429241318587559790989484178290000884775265305507650088018765931151668097216442707323039513877545809598359936734554557133888857621166227549

/-- Literal value of the bound table after 6 backups. -/
def btabL6 : Nat := 261407493495857465580293883596241352856697715482914641028514130993556834595208038974340981274817791175304845244872944378908078896275466432723653942721956228108138085133596135954877748397569179447274971946946589508854848567223477323876673761422476374989311803345490551305781894424963136146929238644229754263746193151080269646319801351110286663024979332077263011606413658175359739399007627725863982884865821581570919173974904593981543199144829670579740106130987095724382646517611159656246361445897934681018536799412723821426633229263928487733738491538975586755651992008943028594939242534830506466381592761573195191520726139054103643877426534972751653492616339309187965548384979353842727054749703025097308521417993503081068802761077227794361002222107325561437467505727941314583403148315068787994400294636281506358029677799158073881905433919000241378199491615032679107217523185177222893103454451078852795314875464742933980264357521592453588529068150325918662495735392554796049777428767298893576022490420082008743529054892278449785384126479406141706728258176847054659289063357599498851595575576677028197751195388489359122039395388260321019142379298023632269825497354307462735466897398560916621814572959516721061067689078190238258689051334821143215519998703469917170829728486075093327484716772804743406031144130517487689876449723827778216105823550873484123655399317633944753056453161101451009761899543271426136320217613434441603745544213750607436199088640160669987180548385051127586942997505336287604213028580779738225332058370532534659424824093815817030428753940380113304411510429407333006822871462731816254631730163734418553623674266406665257180943289907940898117831605920873132277820563289044207667519220208345164126361502196678276324057161427318867828092106254797858806639796764927929056103250886167327849410402685514938117147202310378029699270256689606825982308419025749537976792008148536899511140771361731648992888566364575863309632642501977467694230211996261767395676440883114199453109883359701206231205696407645905019341426175990140914569006030637983109728506400215198537956993898079990861377838529993463419178516007275669126781242044759660362947566079598638414402410193258863612178144188037386350213009279484874671957672164087292273376686689030996134196217842534179372616370662635445759319731712795803890528849104843147977905710393422003980293098125817941742182241286987875647130892281309625930375017743869194128464540962185374249111253815914295971105864078671710865662604561522256381322695065763039426142772579060392702609654056746353220414056993012175428483291041093872369838861403548048700753204823265194260851242903937330997567795975490860419511863013646064058679180451796894162976713396949112059623330589020033429657745221541845048155705745251941515826108735963131300328027096185494942599093782485999890275227505270705380646694930860083064434836056853057145400881545105009544239466984039924138489659594771061221213898244445906572903059100718497180673851382569529682641031738684429843860078980746670952990385147364335423622129218230925335811582570890569753753594158731690110

/-- Literal value of the bound table after 7 backups. -/
def btabL7 : Nat := 304975462425555946579442430483221257113365564720170344044790180537642508853366470030748566246106617889964949947780104327959637282095368001201375381873254749020730533777209194337787194183380121382572835047658690797073192494577729698575237894937488434578042809350426444524050030173588422097624077589470201592843961218473313965716031614089588328633031669550219417838690704321432737045580390999289988305583690826003082536971395952914665677674780370687733817572130957727736657960799207950488201231931123822744524633283757673146673505767010117800239401990867226729584772621905723096972996926223825694664385397230189016690257008939772249837959322113632310255536000529751599569570317447410681920932547976095849277956412596170722760644910389111091197443566361099153245465051046267432741381012576546991542313329803052446182223847850077028724256634104338260844342356393899044867572837288912389174322389481706342266296904300249284588274555991110106775412197976891233284250277125654361361018309053828346582397284493160043993924856222791881935221908421179627371153487341105377673115990403446913962549829924748334638520626677952137092904593008847664444820593592769985485908271228345722388036043495614547839166884215829357225588687056553522096157334302478305435892157605152347919547592480420544859666065560059691939518379987122020097893527205904513472651726026691994916484187477925224702906552408169530254176533376877301562588685335428702396123706188284766045698970747445748868021071041444946342200841169525561315623613083526674658841253844478099497956735671177853561108277639366482009186160279612224275702673622664466025468720681478366145403883372078800834633435488358225655195149043399145145388318699752052377942483681698234795590146648363229727784354928671064576784231884603473812895431286189316749032751713736745687208899247502469277300885527952906840607305984696877530400726123279901707437472299513921692351303287300196173073341531760317215906300647358536283770306433266524531506088400643771376658914436014624126508278144790873454281878424699701605530553503672000120348803072583608163804908123477237664602751014976559258775288906064678331484069726884417767149032891891928271019302565841572428627639462364278590321023822056676484248929749343267268152309110948526096499528513816104794884543187653649513502457398631771776051945913401711539416979349361560436522724527110634330900327748158492677394670893389398493421947033047515092976691243938143385154709877080742855347696246332781548839565532915603278176720217235261241341775853148434027908223484725851302150586809430538776265869939384993650387006773293690868339745460701360336948590759490140800845984833219817508711385077932305968760306286672919947318248310056514904093193415993959901444563692714772540983017033260957563834159246928095612742231146366441293523415765784821438027716415316259207511050498484241035737824313840088246754532333921592140517552263989117181037442229361085896930175965449921653925653833893586340519040672262269911842417403647090274436697237979888664174298052136515077502249207494081204316829743846987910260895387553169570

/-- Literal value of the bound table after 8 backups. -/
def btabL8 : Nat := 348543431355254427578590977370201161577212613116956550483360527652035541950046725176983402207387076358703971213159098802255753452594462157852728465438159211241355242870191375149108742484410106251294978428794608510945162105651877924224478368497712385597913752628268737727894743375847647047071480573794398276180994394599338533191327375145854021548972173742210508101487697124955227210701240055654403720950025134396432998743817309103826701599010632994279638275064514017578014916759174125814498890376856959249418518084213240764065263323566855340013794129921686134543253795904836897148402252176760626349801076091432469036253123087831026263962185871490916351170187036566303551501963563107801308057376411562395804089284828378988508235937110700187934674920553379099979855799261591823192128408370377292296268545121196565301615202283046246033826780348752109709031753598322754423830491328303593836828130548909420497957872418458985623501505478186453651346864613179873057926190937949232171673840919738642345700888412399786382178698719034792852444843514678861580566716291688267323607421317080986063636789215105625329487755892665418299495010501392764553930917916577909469222260565662789485554595345855131947354043793205177522544562549530938389691626728152719193399657767998855573205344480087618291649504763077089711468119893549535160666071945181269812765625351278375004035874725973761422551245218561801383995843663000617815577947243761746597294344187649750524350613633828065525764208439962964149397006247686169334284975333449703912789132278753023419103459709232932566524443820117475778062938263812663882519994206317253513884857395256799191037770199792183810468548454743450452740556649975485466556222584911996118221406093743238969304882988893740161965129523590822670922198411706757573468208466708909598353627453927135396318497982417152243144852496703338948048111306072598239435084066409271049982323650456038950246098387821181901001256485421147182185699630849213026266223836347495647164571153415240301461917739503414995583570675718821483506759879898382641125817740534256990586010974943003864144854371009647278064249611442275620647152047351454328385172270031288404229134656116052000856018248900533361496669921120223314937647837117595203761376985026736004175841591243770463364733636356167753790219361323370203900369400161247237169553048462864520823964358479480237865507528827130228013137232772580357569919209535329739121749294294764310436159726270216818334172589420377708336384891762578614880825822155949878298826065211991762858378137467264593847374597436082963477202966235623379473945629366718970225990034900426729665218491160590876523740998654520011142561730965233285280010716271275910208363428362242733765510768129656519055657263852481607674180511090797562096711981554446995333092023858098901791276421415616715450201400938913838898682599910510125925840899150233520135825175932463164215878034188160242065837489227283297019101030559206958259833122427485214385798635815238894335882893574696359307114086341132630493380718270352812907713087285699350757884391397803804163454198759732850609393742778663115

/-- Literal value of the bound table after 9 backups. -/
def btabL9 : Nat := 392111400284952908577739524257181066248238860600916024899957796146842266442383889612881175533485326912170731543667684236953721237928953382645761911969611061110540062774124774320148425879918790058822968371356675010164986904448545726989301706579831967355603349542887339094111255431198010378543632889376730277434539590101295638386303550013749213000805909498167484871974313046228785375488261434667349021106565673799253468243357147624063059019620250668014674982956163181358433295193777620830246727586150843152079719233805094738516086920277843424002850116972794459643665315279909912099080837291271302796160122634787849167269932973724933541852278659795185560726198978750574286925861659827016229411692811392220625080302758688020436475312601596852163751071319740590745083285568402149241320199441331535951156399840426325168534015024510434697524231577065153970368126276108642742596521372628822531522475928582504419777385709429770050262641868874120808422491745915522240346853318895488046048769835723891425901340153351365822308910453089770286727777248865446998034347042292316935438484422570127227409756921644713238291434023764570886193002603350217316773805304231858698268195079731111402943523113192099222928160723401877718481452006952932577023529226166599570380689364869025736777670809031495049905314177490144629434510322813683060729709036592294688738667589572385503035360339601989629794335314098103852661085075446260215080014033664458301222305698697859729909332663050279935775159347903727163369088449502317155874807289837329293726714772508838770978571829140094915876953833169919932973957648733842254388027585941874435329066113254675577137359847822282468333423786758711065472151826590107289264725214242137692195521521395913010835440940295181084102043859696234359118037401312940389586464289586161535773917981173272440268323031176340495727658719452457771807408696109868590021289918694039413446135122894554463314638819889312431113055487012016730924603874741591183879029502353903678103069394349626780061224855728577471638744452801656987945968218965815964929319048691264421424927246860514347254305176394963547509554528779119667571722823126930031085400050274464565422513750076748100194641278947560806852755606393694572352311523951673183267884677693809518920680847111640794322564969922670757231129673124025008511765796883305295957474019393483707331362935812756905578153303300563423584104616839771259792182547702433188267800135376850255672780757563033161843833078643686637595124428519015301792580218826141039093697005716653360204614064637758113800171942728183035937748202472389941261201694832077593851532857285251218646323243724879719422026031519165470041012648940009313719408775214380258491584632207251285316787697890528487107424105591521801137816020356996071267887205404833137941324698920992043990818518363429067037533528892852127334676244881488940300512629447351301885527503355881463898587324616760986485768354020626312634056847169320390338399314470748265926183198732412690207613996573110980406506574469909527491277779149401694332676706682958541455240130922510815251115866609989547166554496868876534

/-- Literal value of the bound table after 10 backups. -/
def btabL10 : Nat := 435679369214651389576888071144160970919265108084875499316555064641648990934721054048778948859583577465637492225954083185737176588190937072141916601407659421582481156851711071714345417489321281682684550420011584770552355462709151408242105732419449864491178196764307066346432638419218780106440926066104411294457214350869328643413789536336745086431193392998406996649233897081510283234134685700235310717999218903842004158804660135525329017904416918689697174149928573907485978900934568826949742664018312903598950511962073797246105007739061587507607724199409138383753663993732409133956538766723090160352983087054629428433761879910612852527347591142304878744930699284609460569126334126854184392977801465379638728793331492316254647367651848076866804219861267282108335664747157856732231934947142083492810644876790227214355840663126578027867857367729985233952670465879129596455572162171202434247617726957947240204036666365452277230038921951129528506180163488835393403157756503888621521970398701478071083331017217252609692472841281696660685947282052667420750719820464086130736852761632319602160492025183538895908992709115146623833326943254902414967922130301333837450092209127144973888637214172996054117374635664962315563950508921932055982435795242533445088159291494681778631543919010176233223990386087351753964475103375019507766121651544956325426130759077160669127674979244898676371431970223002847450475704604927183795493437994828203464074517724430457496706598088969576274335184422437964234383297840539504472424892414317507357629821406627451635048303356628328805248687569455432226209945448884964843741115940351350690356648115963751005998396377175778499024967689916402712688573706952289733539873396597387067083851429883345688617936578230028624220033617705387797031996581135195778534144617858082552504771428460372543937797885274696523155619784305711417255509975995617276283774834665249782034085713655320560105713194404450499552127644545823658214994258876987918851995497662403871108839914151919748241730673450339039836745118900253904261193469975496769405787555779631358595656904647645261781365463920397132708841598691243934625307084760058592032023183661245233858673097556837235875285813073713555326179800801161587356356453820542674040762856321289395539145558932004874279474351737091870944950207467516520860250746277756258651983973848806716530097359113303394425167575087704772845262840814152591679165103027778384794350875828372875048957356101046577639851387209902415066570660546531420628016569364736414351696184672749347753803649006461324920494565711097433187242263982899911999170606227081495818580567452116011131527871404205700000714337995088287431760258112717298445382713561109621215543323341068963008612350514939694493413959853613760370448762972479867751033424534576304524906061121821052882137100842849503723714546946774885009143683202785295493312701873581744983422169477190658672253710228405445422325278053681417206676860014385149195241187332850017146318193755570963232218351338353593535418546853071552602610651488530546463998041125387000012072206307527067109913351134001090772611482098008364

/-- Literal value of the bound table after 11 backups. -/
def btabL11 : Nat := 479247338144349870576036618031140875590291355568834973733152333140378169119895139931588285342646577969220816107300941688122985808298626351505510220370432981028994865538376170756807148368371993558921677398861032780942499807654436417038301281532705250583200381559988209914981263266613140657101122127834018039605687482131437244404913738608303689424744689209485079475243590138404532067577384240162416271841662364251071056550417162854388052787861246921677805376619550742180324950091706327234532852141305714520646997763099117352628492113489838607363540272191694744683056429250541148915666089527941733217535820815809021563656622294968221719960311451030079642302645520126249083317800058204206211528330018443839952568325542541646228357508919225028790025502939925150412073973089643964209317584519401998641793740823817864202057016467559218834105354243027126009157986010946009466005434173702389141132878178072308937510536105686549709692811072735067325010309186818874265118271325371728754717335231675203565997426798844044855166164126702576538335778793958364332227384677801593368679420495688650100031981176569667212207261171860630508563092345063473943813191942839583350339265385358694844723866283137878554091237625956424153057786841118879972374441232388359015020815694153254296564481573603467729884877413382167513933712513701685499395251547100792146633509542215200135087215343677941760518321256404821714281404269977683604898261078059419318445036396280407433852945868648710882243002156389584379774611547471960663664410557726976568940068150516024244666691348201413943923650227498851103946273611123701055972760633028530879879423144653695963630503906341666783442688644631146326958795852171228133506791000155397441747401948730936618498183630748324528452018366564445333867430831516131977699615461721075103488194397732768641774014498819217835336659927965914753097097461727795645347013470594821854573409885823230552974246655684135804073731502453400964572598943395918876456639775380734989683654265524368132306470735595611108174005529948574051405702707942166676677269372316923583494519097562357591824709044624103663178934496926893134335763690678636504299875814073640576272911358564196730120920953803597732459535522527746019954548875431678021465647453661314129399481966039574418798003659025623994158450267101498852506222079306513438993074645422668197490934005831865440701518261704092297874713026466669807364664596228947933569944969796307282054344067325414051632153893463018380835403079426177392065601582704555973719674017788458059284978631756176546100528593742384706283518522891617674113580724239662263487422147050725636231894730520129912460213360581343032390107482378033863681470822100595108181856989136140808138816024494454247390906454517685690763298174659136749635978142631654595101143084244694992747836903146117394088450176656034147825638218116546259754366632393728171398361889591478840673452359893775707190367489381566462216230812580088486632353430067197422504927622686465921750656384983599959986798748480362308891788953454578316144313014527108101808433858476328683015807930033893811524120154069270882

/-- Literal value of the bound table after 12 backups. -/
def btabL12 : Nat := 522815307074048351575185164918120780261317603052794448149749601639107347305982493232403340080673682533326008151649812183185331439098417078106878123176400997166951862577304730061414564232683478433512328558086914231964996626285964038291057479969307319304373461242931902671515426386335268277115801283978128278047085310770492019894509597779262817336292937598449168331420040821111112816061824960327769663854727321954783786603142777083240217454441641739145413274630510696982993020113050907254090921588295485242424030770003714644328475353021014298868896066127296524431148468744785333917566624511898522232713826135556988111253518069192699970563348492073959625604170348602835910322406240852952466631954360074640819012290847122215156703786093837892939655206777507509356001065126902006736279622620803855552198340844858591387569003653034255171563970678087258933723549441004959122306120047954943969156110679184161040575124010816525133687333331945960335471183171435639648212789636252421448726099092760071649437081759408584721670498680579271296718488926602709875533858643356081773410075799657799930641719509394863657003802203005477815585852840579339876558312327620156006843001043258862006986027536981520563023874336993874665839208229786998969053855708723467813941619135355937798523915806162279612843314722953274855827432946863115610348728305237859696258649226005911904342558858364234643132809089490860196972484905591101514617442347761322270302481011190728147047011055659555715185458865624314292500553110491573633728834714171118449680584532192552667532817398939319984058005277140735075676609284844231175603904680702835441716324010462576575223214046708362109951611702544724741651330346542943948648526780488940816688473205916179781295508107465021049683893246751541191671626623517122338780748186070720980943639898710757720524903709391176389364287861114404076552227451609096230565129417224645143683511341446817974932612155916226233932937585211685266510661243880343692704243338709970568644642310753275142345946566302192718254659159053804609858779973937983233181748348337544371453795911732165810770451703672098444402016970419712579643996794396854000033171116508940557089540237223700045290540756602182765328416538932470624910797229426035247108319634167621550846027682781076894260288111214900680949555756764011268415702264781321373299366331302286752032201575782404297458581751548964262077090383790939001008195597490080504834688715229440501664742611083633177809992806508599074072740302192207700525327960968819968639306079764525097987383016966682120789156723570285620885941856266223066298489935106729039636049251773385416268729780180342229202630892899708432290363891285105626797464752557828607395804008735744862943228396567726256935618369352978829910224985893138271453959843183742624729937664426140289615619560933274045850984268806751074449530341536142850509533050750647526346178533314682024909050438542355088054835932199840798611661141208535702146355697031280239126742503315812094532580413456185518694040424024431495117819681978233857004396023908595084660014895931032947543303607024375557934834037902344600

/-- Literal value of the bound table after 13 backups. -/
def btabL13 : Nat := 566383276003746832574333711805100684932343850536753922566346870137836525492069846533218394818700787097446569603197706971102965467153046555380980920937815913111382646043607229683333045384010748675522410931975679586450194975838715703902862463249272754328715846985116925859965528019403841414519427267381193226231201264457014341304599575754337735500191555395897476003640442875966318937952858891606771506090491558822862036696988423959163362924919398883143854965314461727760429593640222674925259768219343106917526357545445523455835180964863719677071273461732329765217833341023599522999181602893229999684953191908716385274419377989100567801916366284879193242519043598337010137189361852121726328120955914246939273821813279682948981147890824252353745039075218232958790939303092822284617175038476891721750890217019896964541446550561960414082580368714539721637015817185587625155255120501697737069807132551966312004116809904115556713684913538073740146221857777285026618441357500637240381026437170927263993330776787825305315281691783315214631373957209119349439974784384177838017991492552030011062322386496955927693380247239567904258015913361266242848337704459905409344462053278917613049079394590365964401315084856895141270174834774112514109324202768802321171729134181224447812428547313726303704768603629685900507802784073340351175130587070454094974881152070532929972006137475805099924262162117663999867876849117748839937418170328694301169388637638943739322802486145136070529224625552189083656198244683648488517636492553555786651704293700701709011605766455829438202005212724169555348393040492267986082611103604147382119250391449695997342949422338531626951423898630464372663457144417617970628247769814079695890164941228739198220968894993006133584143967986848452203212808137841996069659097314498903333211482947527043618815586271711344806615681401674793590044519761412761329771743829706254788742138875551103579401031932909826879065226623472377594742859965913677681690407114174465791825462406430265413696228742884592819547546415382869731755538037557813093162278402218102381180919794685828271318985493683675062615687277268446883833552821997023244976468714750150602914991180468927768634238945382064103513594244662801667082249721898526973796412404683454296056061382037530027920834123019737442330760448020714765765611183462793400435065480846798074891770558893610127424538726389970746285789515536099722548061459350220398315376870672867148747028789181768625555811393628601417268280674931058331732291877626459269994487205927933544986338682323111432350409988703599770323861694909898458887487182303846559932606326508757568678480059675007758779011941216357244415652139414179506567823199009428211936330786768386062528471158008020748777960609034897778090542273906780560188271071403060302592228593572277128237828417528037627719212728887241128325846405597806508685675942456253891885161211350033229168585467231681729155693694211479803072261237071059490277107755154032578570868813711080858652804683542311168897497103305339393870718586606528081655092042450551188167262676991278267688666982567986604653385891147547088

/-- Literal value of the bound table after 14 backups. -/
def btabL14 : Nat := 609951244933445313573482258692080589603370098020713396982944138636565703678157199834033451719779657229421807489435815520303329982346470664326059215790139944991964878227945088831245635082682580974161503743976464620669126000403133889836946123899497121158600703870292537448453483473879864529877321417028873989627450367179796816373060288065347620350129787145287071840143914640281376713165695727217496818887299836001344404566733565903575091082271567643162404714414968981771430923565270069669714026286767609150837229058980841909227942111696439062192552953884093656036592618356391805307254058046473719154249565158569417391167984298058855917694939527354565892060956559382098941097054076383609914624312102888857923222285075858248969365595382911073070299153231401820906112055699899255497840428354453501839363984110594113450212820400217440761440977549498733881026103299232274741999959159879134079514653892201453252743906941369988402991110269482007503464741066124085919904941099574703801810816420725230008895613081349312142215981126752627328364285654099729748085362378574889911473319520057286838428355988790881722459564930825301532172376236553230845093247839627823518548685374335875018529080177373935754759588680327432794641032660149953251716834981392912742605030777267135425730703781948187214424171707480985001197035014968053484855595113306154800358386043585018399349709694858333171543993869404410309198460815951800330616235554611508764429134700847722919814654546335392848845013542181295480405164679996819429534025484837448977811277605744401747148760331070489303684905135432410386497727262443600857425950786518976952392079331933977667397902598520909865976638356963105933859087781219241260824277298792404464805560580276287241806094271188233351562525191342368024325209236113363493545068723499457118761225962119498865428933697642884778215110428386282435232953902914559317765751456702855561676118748832710270462020590862231038271200176771003439431317634609763326977333244450583460574569497778553925149264992849752106017789114148174377348131873384634258941992665961396552362933592862667356507698148999410199030507640205796708417660309975265894363578358015210814291105654173104838623916863786152830648604824373017289101815098343950476474292465970361799354956004974436231981550528823677768344258074967085938418242446419300228771997276142836447616800142766592941082492408419826982014640338806002388037270520910300990605507278440616991166098621583016399119082017746355411270625893325956047759885657316060833453841858476380043434403006365124424165883352649591532351319963925005043099413088706949155197915923681198949437679431670327639851704116092696080141254264345813554713861431685396618722921219105711980784087053019864583983652007701853651988104097455186537503322986522934990108673674487083239316875513437379886704915759479130494551188955305818264082366732345872962216691841892037843584601938182825991305443566078853961295204340914620592904867284379070181020710457546691014964793765043650858789141100911109222010848170039838741324184368857277604982298309056884486153265009940395249151670555734442504

/-- Literal value of the bound table after 15 backups. -/
def btabL15 : Nat := 653519213863143794572630805579060494274396345504672871399541407135294881864244553134848508620858527361397045492933195240866148575130827256860638121821516200155565922816287254085566187316350033769352974195021769541974644740145832505927698054750665011262939459551971745772312814843194854595427269321206306794383412730554202113441570100407616897862090590047611597765380524833593207375450816848633703188101345039174771532423117745079909867476712260622032442891825527940133655963996526963196550654279314305849402782108110961142072302285721333866056276135645240677279874714394513605802553040096632279331105797697254432566104675434346025386619527362105139378921213948677972308479600800080000448041668433660411023201921271094540229224978636357607394780442043814733868560894375097963449331786663076116703595603570149145529542142501567822629307399942437808871789531839329082000594800352350174863479761031508551272217959359893495484542199935862122870345794989180495894504254759489481049621080594037890196320702146712807460087426500335263402443052023927282446567862634138039039255536619931451847643753002849260737440181532779181256406851912865298766551025681461977328898329103678661604444664981695400412958160787235796888470647230080395031563779919751359152135446521095855443221853322175760545658374347738744947170487654859842401577703472275624969094396308091216364128646041697519884786743023168388226239611087773220870821900214019533439955718721527084903034186109103870389125423036403323084606782950383723597663026288006882469906666863911715649837508040735475575037995904198435138182741841052321929657102187301743515385246843305283255059002403647887141159127308637507045883857786152130768901273580334618258469961861950714320521435262662720274508810432835494742053664993447718533191263448964062387326916802874754923640147212775042975585385464301901260383637615479692805992191190147164066565594398559879352813239809985080525986782570823284960235319427181650935587471869670907370111064921614876249678929461015966527086294384518025128981219475399931651295568426866006842899838878388552572448176373450701056200953975624645990128791803941508825067971415426800571456888040341142353876452830370443657414057880116269373592087715780381998472868295261879316321717582081204839916236439544631993220466513072301031431259447142781130638602852209187972040827306278032183912442630398846834951733404809828183750272925984768136612995016860993262364064873852105192125414564426165532857223025147733308865616906443313201619482482920690082405378295055140965849573582474810194332571870353811115852872978570908255143177699475410302806574371047594726434489343814121726953072333718203337787114661574039460823927263797853783089027579037493516720032103587217219929917266688246314094681439075319205945575248658746144235160867171968196132962787239618402024657105051294680816985398420472373264200031980223865718882479116695350917014881480544322719879679008414204377875284619274198799959748883564129367219978169989978960718075469766667714217565256292557080537257919531192686684235051650133465308799888645762277844828645491267

/-- Literal value of the bound table after 16 backups. -/
def btabL16 : Nat := 697087182792842275571779352466040398945422592988632345816138675634024060050331906435663565521937397493372283496430574961428967167915183849395250903168735261863610076774333390951772371192928150382022982044374205774538766428462241378332940056713165643035382076242469427454257255984191821124418645829007186116757077575095083158416063273494675671341840245133498166869303740448079081029282763418227638592084876141277575642444153527063027306337926044844021905906361415529188739024933606152156522411605301748096104189778680467502396681638793027020702588063795158252132332103073383856276742917443672257393579930273360150486074023632038935309414263605665942204161142749770292160293600197630616427543988895415111821048767224015157946147848867307246821112146881252649889583839322323942107430046601604885370656987154400397751874459419013321028215761196619182814665797259128732959272088348651658856165676832023781122312477914944711586122486335155269453503520388726650510424579957559849032097161538331757978489051740446245384574763197365602504415535105706995308845720186205510492167881239591649324960250186742935304870910975609694812200235567627209935327000030450404341959059324621210684925095899623833095125546023378300986868279109901243748966305292575995758231637690369807764213314630948712639381288450298575584072165902387961180682217910357942127511536775057873679593419999845847605479602282576445716187318023480610662902159984212287408563542427925729968707210782355679236856789732912236640779733333229403726784153054178501067123804560272815385257163942181542474756079570130681694314062226229881662197603373581880699059903211757229992776058078165268266906568569070890054563262887189355176630906638722647017047720770234784602277928245619181769828760111955140150368831921889641068432530786282274199897179363934738979512141768777035637458482329915644821986697438623977899342164389976154599579420845250228541030119431855480178605323683767756400065096040770755094275880805031887542228868248461526178049790372712265147287454829456110244795003501220152379149146011264176070395949887875798704749053681545829366068133293373433152152941322934472246956741362230632759612429087134686972305634579664974249739499619862819348639845336907476570088972790777547908460891433464000318096380535042851198345358388600363748048446723342058282562866594734741793765161797952616484594130169961855837460547385240949755331761912803489448227232280832079087325374238632309622397519085558350908692609932514026392382412031661928116650363542958259326945234757703232457669620586018474790892884216527414226392931485322348271128579542710040233544393888667316355807491831436393892182346352658959762807057470016947942784916285159968080894608641379559181117202795449687145523026300955993500432628625417447638876406698648313016129268681085393254638762305600875152894404244421814145320489760311434737891901501986500969586698437429353179170507814446087835724882501869101606544555391948164726271617734507243970740333472795671179152307568333743188953381476680034655203641033279732108677401829223917351538433553811022383732992484670636670

/-- Literal value of the bound table after 17 backups. -/
def btabL17 : Nat := 740655151722540756570927899353020303616448840472591820232735944132753238236419259736478622423049273175969589067299605415535888745769066033675263021120119332445117500996989257056904906191804861234277386899535953891641033858558334289480606728326916413843667582441939618968156957445361011746183602709110889267688418106497191414736943544286497629836964790304356128078454838402515576574615655510644095792124877437370086925672536390166111453450723284579316669704801157849185783063252448296023773361225040645775716953238450006852860130020272065146811011047338954269270021509649860141217699375524827437456664196918502550134812285607021691918324985531461563624354051266752624599871951466122658779677803197719677792036205620439989464422183319208761220970257049838225253661350826735845463674864112341890809735959182079336637122484899410072919887984752030251139009218622898309696824952070441391483009312351999466495378798941083671970501962738290915488721054337887547816402348408949116542251577476675881851855700730521801649779531453899391786123616381192110711655665454104559169976965545686207047127174052695252942380700058313550779433840780175396616868969428081146207546799122265945426815090740176687072459339538707377057753239306927404301484901222199606911823665474838849023793565840976069056738565168551361980433820061461836060243214238868905155584220612620079514117662401002842813119522424580051938188383646552575572475931393193506525905777792290329985479467872606387269317430092613692497419524950425522793996015495498970766129686017575374160037535164231571022302027111352280746656463534446041741228935240759556405502853165358750690832046590449697971427850713255355648697271897413296775515605076439408772037395679680799070448651521446177185581790656333048882702970887948935722996425869455370009720920936400187319310219069139639624778069499722466168440171324511658033160363331497233315752601108255066568634416050565914645561836524009376376115889206906176992916558779066943033392971787511610453559115281660380495963505083584886219805122045278248383319659470395735000106396893127014533514833961391599439173827283221530404177559305176934768825176109186320772662118632469593836559805465037635846729321654473157442911667778929695545149448654545235973397337176222388301135269219133266098942370542840572921732569707780387566446490447283528718629026982310966899192801237987152593770565681593499012121668962056237411197941565461559214320869486483255081857866570093509480636528938545454377276987493283936513114313174657634420664397089628173121694353717142500641254795365005932320741300569802853251044984283825567393227371985539156820710267341865989963888138994391965739214183095037064029312645531141427837510254959546084723381831307882642758454309802156275759779641521947384740666419230178284418185742311923595235015636255438090919354167627125197086741325752127601724868276817024415406957037267635535307761972564993308233158775267122128420539350256282645394637111184252368681643145868061958812345358381550077554324807766283923217180352600562736632527585077468884511902260899450521274804373252210557628

/-- Literal value of the bound table after 18 backups. -/
def btabL18 : Nat := 784223120652239237570076446240000208287475087956551294649333212631482416422506613037293679324161148858566894638170425104127236621065493777677871633808332687724631808497044241350003332225761743231443925604317079972551537392890933802954947474944874145907468277832800716198828742338989717136263030121670868911777868238317275634898721283841444576729562435707373460713348081839260421263470085146754215313657499852760716003481541445652492777539421849997021712777310588564550648827434406477211259506961065854819733402371459158317167596894611550490658732024674909977823546594627740720415358314113119882363632662681646097721692984395404157490255850985636577361322966031249485158634646452418434758826520014205886102478353309435928367947016906998994435504962664658651202839398804569092431485432930656413297349457777036354330168931559018083883892050743159615509262749352041896605260219832444095387454931653279472125959029474187578766789974622566709759362205697112049284809470146571751322524641820915344568756874940330737281955282117057081677553542854821148918021106147445044875583726908366928576471282012277103693072923866575504327343975440129698309241212237864529791335803938618524843739608381873073612786085914053452637998922449497862023535535801858183887240559422618702922230889383972743068014204123629264429831268989072273214388309207676165520132111030986227260723335505292363495011650023102381898219181123219159199884883234534111709472505217490936381547673109158427929190325620079952267150407606819471388000044189162055495881761725615892413180204729335906103628473784316112208686031439275352580330629774538890785755052754366492314506183862771517591474187533757336330219344458539883944586294540570258276399781419661597929644373791599347048680129942989917612314394142329765792035314084194417128830358431001151974819293548648444636939560415219787700039753143990754579248782193161453161035808030027727316188687596423562148631727468293107687920114808478185775672142463146529336403396898626721363828888574769548824094302717865080990299298807466000227789593223158920515667887499164505256519272511537316259004906182008771503057757848931620200524296495481191577682747425097352446689380380392401337262916205828210601157536098726378915776417463530121888942838426689410073624625539597112113781923838026516994648709296193385969350237261466726173180396301551370595038687627737289852848688126373007588341266407470802021190228909821143920284965244309757228371998596870036365600422598585069423656858476867223465100914050135695595094993995792052044731440465331252931275907339368898268019420250151688724646562467969405037153322771417102949615447740458657115218327486335912393126961386442910162578395034156174817226830653979248875954259034450581365152806964374638481989154855815826538595670898895693153420447664917234882107741781262888241780757261717136384126908934023663992674821928513875156244008006427062558009351746088864023241507296039696266341343278414499268209434117565763976804099607803591074574360871988197179701086614910802088538530073004184508229247375111567436563958519913452052755474447631975176

/-- Literal value of the bound table after 19 backups. -/
def btabL19 : Nat := 827791089581937718569224993126980112958501335440510769065930481130211594608593966338108736225273024541164200209041244792718584496361921521680480246496551301091717964849100196557452064312852721761524497152690945785641666133706383499041383764451741454618245338691591406318435000199011848946591657999617870770947390439381245877073595215734676479930416496778410954316613154956315426116072329393441972660278855817969798124788078533042160873717376887699817487423130816159314613363821803129069063847621718432442716954308998250239359640089056062971159030452497848357372219302707097093444980118669012346750701194314592111919594155528292096204523025414205746526131905921642750456216116736206125196910290985413165112571505281245571288178921511437924917294782031668081718494721006976888296331494653605895727266349888248802296931748512807142828013645606287863452739414507137771446693878158490951639733451545392546747902813306170076197341763219321886341812039153804444524019181496140261764964323185590774752021398215985465815629199527804578073755929950464735179356245203703962055837350047786573354833169745483292206229463966507302734209287921360021545729945456236268032740892008501967534132578641436272762662325029928838264554383184528886243117779499261899690341244535743910226953870201513263140795110626953303618133440029816149903082241165543710846496907646249382943122447446442640076145724987326671977105117704736735548708779958856532869694412632573338242244356002033533273287481041993156074484381352254542951027541805209846657292889509755266354546148763174457801236861956100639809030116026230430934662940528412629105604998020626939328064099200948453822102755171127947384966847043617729574728791436251302872508320214092277337284621695159950069429778577659168577884069270682990036379731162876919607265838169386419614917479976230288623046632275218740548672463755609290523397022847904727738092488562771802535396044038740206554501712754180220844145751680431270146603173508119496591359488783412193666343813502031167559262848829571933975626030720760676443328706747924284204765606167428430634467457146649760901078227966303125752112939459794714501183851317482299804174436352633248516455457952657042095131218069454690114472837541129759280176379714683709480367672726780144156606859874734803910258080852419379765656133010607031941160136202925284180711911217108908776879679673640351316073424271676837618667638869152518654590055254837394486724850984269923544114597310175663341532247674364207733567916174445972419028721173247491837546493142237485241384877890105101931163859227393736268064577637711499128473360033926447408164784875292221690924730069411556180802692095740793368587146537807991763698094701102666749722389177156196540158606505103050714119529785992764326752686835055261956834984777053033532205846219650832019458754725466590564105851680501688905808072677505249152472903394853231853713843761179040379269248505757787148671665574471780646072058330666935793540880947292065205086407940349716561055986104402388482993314053171319022700110050806168514630182556130619534567334151768346239606826911993299796

/-- Literal value of the bound table after 20 backups. -/
def btabL20 : Nat := 871359058511636199568373540013960017629527582924470243482527749628940772794681319638923793126384900223761505779912064481309932371658349265683088859184769914458804121201156151764900796399943700291605068701064811598731794874521833195127820053958608763329022399550382096438041258059033980756920285877564872630509078727498594983679776950644690293305645729925872114937023639124025996135982368266536935675177587361191598359022347864086420598602129759896447378596009842143382001241047545726827071965794676722461512746182359757000867340955494665697957990786597229502024545049378013763586587153087351173225359369393766440894438812303778921020884560594749103463271934926143854750088998841586080318044011494829885937511041310328685982437394239550470096943351867843182427240809507989813942092727807075302334202989191613265529125597589585681870117775534254311145459494019396003414307667046727075452061049377906232478292490838996135136084585869471615390671179827985575559480850679426939286225625720329465442885279104926124251949926722675497899575923115381467744956130781740450325207957678770587273136648310512063790733884589596395240839172780340136284144678242886290205504426794188977787532547377159131945878647122688975381648674504885848888580405652709370752923365551851942963800529545045356545470206142665355936022609963271005802348279322835119286243343623182616988241347749377235161114157807033671179333132138831163441464630345219688080242234376161588285666874477225695412187761069078123651748343325084697555014146851557444048407004956330843489949319399118157887669035908625476638011990585403100227189138704006737900709340624379710596715962070378041279503182485251439454939236230604678356907576694273109147735456901148166820195648559352942365351791740888891042937193884041055143251541928895558736193968971546749824502623273476804932113564432635086928671824590760251728839708045598013765472350910902040670866221456414812315186378420929092283793884938828711531834723213670337846577122757945279611045454101240879580019046599906860132675537144608623049530213919027414670051853671521538013760535746259467530239317542605090350158675073379619378077449705383515274639587447833837467459791482359606003896882069977582716984503663715033255360605035142848034489717178387239112488903041040220004527024602040427903944214030230427269324080085380780845390850741547594527142444722654438218447539233578173063750311416211588353165292009576709871183642473561275910378549363072345933294895968015127191649582173548977937692529253947813210807661987772370997095621025344676192660799307395352453510680417531379809235135355421143555202460114672234227678395882849039661510583052738387204465016127048694948927700744519682894819121634755725074309086486420890032580006628404499032880002762127981714554398060445450221670628324707749075089601342015152172104755157409027932454568253423450513662654018470964384994448458949916072076326621419232997970327283163231340944591631142558149461168874669771759758071679308621639589082138345299730436870318016774487484161136553479216631783382207462274521038818672692262011694858718086048

/-- Literal value of the bound table after 21 backups. -/
def btabL21 : Nat := 914927027441334680567522086900939922300553830408429717899125018127669950980768672939738850027496775906358811350782884169901280246954777009685697471872988527825890277553212106972349528487034678821685640249438677411821923615337282891214256343465476072039799460409172786557647515919056112567248913755511874490070767015615944090285958685554704106680874963073333275557434123291736566155892407139631898690076318904413398593256617195130680323486882632093077269768888868127449389118273288324585080083967635012480308538055721263762375041821933268424756951120696610646676870796048930433728194187505689999700017544472940769871464965350504577696172064264760026125308492254637424428825546519345478102875970594679135231500981313859715260288181018209235018232276072145505095517053118600897400451645346523786160790084591388048155022673849640614455994990680869879080760681335426837417721961006563033664408806410472989882283978967433955979528411780012295747352331126895826624637371933300719299174786092573693526307848169978017719659353808359773375677546081530412151068893368932965247565696981849086006205012500031098410753343542483940478956502503874987172614666795626725381853484981767386377927031872249694603194963017371353530053066056365354517028062490368339748764580633532618712108845749020779890794093935647911506730812232736716948486310097969910618352154412906472364170019531181496000938925441731412368584884085645532114454524378816342208031995833762365553254806383234171684238315658217135850867435118468370480042508507169863538250257912748355271317408967835929414569042219875104651551844044131230172961188599443364223588758160999038414988583106848102815251584214061007499240886423740481976326508810011626140225838458323398181715917553471965475622089828762517642725942792571483917932358483659862499003085413492197194592553033859417217411280857960326232521699303642690292520729768223146331449035241306016286689595219471055322104646339670487876827782511504205044703166935627322262703902000009094858328727543776281995878679131656718547040442846919072921109838192588672888385236711660643217821662691381494789710836356064650234215423603026061625334775763300348973576157880070253006898433023570835895189322117323988412852361284299880922530472029261389262483974837651320091315304776935163432317745701460405581244394746499972055024156457705154374223185808917738353664838841922158667812199923295741188561143026872154201602771604691152322783737435759115373549483629495597423729592276671677226878659622433033244317475645003724632214101874936936483798886955871307874985688624716912737597009631889629670226333803338857656028555419864310127315006530265977036597305993701142177132753179534195470520628537822201219447690892423931782338720043615641002452829059682650347658264190705369427770881773294519851856145392642088996759399688417330750222733397714884557770889304205220790794718614296003133597668261335856978386373356118544446684615416153124160627819542245159052188366044726813710829916112299265093839215836649635504166675326682720975247434085763282818947190969893454191270376233547687577406959439040218095

/-- Literal value of the bound table after 22 backups. -/
def btabL22 : Nat := 958494996371033161566670633787919826971580077892389192315722286626399129166856026240553906928608651588956116921653703858492628122251204753688306084561207141192976433905268062179798260574125657351766211797812543224912052356152732587300692632972343380750576521267963476677253773779078244377577541633458876349632455303733293196892140420464717920056104196220794436177844607459447136175802446012726861704975050447635198827490886526174940048371635504289707160941767894111516776995499030922343088202140593302499104329929082770523882742688371871151555911454795991791329196542719847103869801221924028826174675719552115098848491118397230234371459567934770948787345049583130994107562094197104875887707929694528384525490921317390744538138967796867999939521200276447827763793296729211980858810562885972269987377179991162830780919750109695547041872205827485447016061868651457671421136254966398991876756563443039747286275467095871776822972237690552976104033482425806077689793893187174499312123946464817921609730417235029911187368780894044048851779169047679356557181655956125480169923436284927584739273376689550133030772802495371485717073832227409838061084655348367160558202543169345794968321516367340257260511278912053731678457457607844860145475719328027308744605795715213294460417161952996203236117981728630467077439014502202428094624340873104701950460965202630327740098691312985756840763693076429153557836636032459900787444418412412996335821757291363142820842738289242647956288870247356148049986526911852043405070870162782283028093510869165867052685498536553700941469048531124732665091697502859360118733238494879990546468175697618366233261204143318164350999985942870575543542536616876285595745440925750143132716220015498629543236186547590988585892387916636144242514691701101912692613175038424166261812201855437644564682482794242029502708997283285565536371574016525128856201751490848278897425719571709991902512968982527298329022914258411883469861680084179698557571610657584306678830681242072910105612000986311684411738311663406576961405348549229522792689462466149931106718619751799748421882789636503522049182355169524210118272172136626316830557229808739972182120011502258750175687259886578037244474010354199387120842185424359617589779323761958864982562376679337177320239053276838241402891255813607552231312791820131974388513230080180910763369341495901441878481587849014434102903928077639711526214193029481385790919351657160967766737333390186232075741187930555310505567868144216748110525021089981493587444844193875451991710926277019894001184262830564074276003050556409613483306839871342794938219519340328044343904931269370972904330026974588166684391847679557069173408829618824699613188809605183294814820820459655005609798457546081213156351904078350228699986363967757936277920001106821420451867966690328283586139034606084021357503319625709763777782358445731306626024412440280997221741302749936970088658711744858412381636547228289373976691387006571895570257900866216971710250108216355224940779958877561101712793769886347152475626801480151664966812502544434482300013162993895828240392331573402338366

/-- Literal value of the bound table after 23 backups. -/
def btabL23 : Nat := 1002062965300731642565819180674899731642606325376348666732319555125128307352943379541368963829720527271553422492524523547083975997547632497690914697249425754560062590257324017387246992661216635881846783346186409038002181096968182283387128922479210689461353582126754166796860031639100376187906169511405878209194143591850642303498322155374731733431333429368255596798255091627157706195712484885821824719873781990856999061725155857219199773256388376486337052114646920095584164872724773520101096320313551592517900121802444277285390443554810473878354871788895372935981522289390763774011408256342367652649333894631289427825517271443955891046747071604781871449381606911624563786298641874864273672539888794377633819480861320921773815989754575526764860810124480750150432069540339823064317169480425420753813964275390937613406816826369750479627749420974101014951363055967488505424550548926234950089104320475606504690266955224309597666416063601093656460714633724716328754950414441048279325073106837062149693152986300081804655078207979728324327880792013828300963294418543317995092281175588006083472341740879069167650792261448259030955191161950944688949554643901107595734551601356924203558716000862430819917827594806736109826861849159324365773923376165686277740447010796893970208725478156971626581441869521613022648147216771668139240762371648239493282569775992354183116027363094790017680588460711126894747088387979274269460434312446009650463611518748963920088430670195251124228339424836495160249105618705235716330099231818394702517936763825583378834053588105271472468369054842374360678631550961587490064505288390316616869347593234237694051533825179788225886748387671680143587844186810012089215164373041488660125206601572673860904756455541710011696162686004509770842303440609632341467293991593188470024621318297383091934772413265398882894364414114134145875800495594800024182152573350240302173730102889110132832534068680546843070207969776741873371995290294011994593620599563946968886496088921392660057717909850141229842186034465663915599217544080326192740452046463956071836725643595399046911729000675079656859194349019763152429586344157298751664433346281470578613839266389033320071187039442136581017607406226714979167447899087242466597903603004414779792010807470047517722690187886591060537357707455587195290593037989131502489242325543558945406949682830183691680422040362460512778713091715678062631684728650829378836643906293731183247915958862028768072410229239432500577421852470876216380848289005398239847240137273435817485141859756344914905973716250473200386398106065731780949986968663803848696222350623961739094482243579426031813056719234314483954172945226888743891699796141434170780306894248570636391603110465427597715433468886659554794654282225623363808621860072007497034388891577312752394499825211760490918588992850728407579820101175639901602308730598618829844342991357373546108951998701254642308605434888801233812816724084902464073306029348070378223018716131188782416927696964731618653055495038872255266228953769568291704592403395172195679202006344129652461673987124529482864720688159714837645

/-- Literal value of the bound table after 24 backups. -/
def btabL24 : Nat := 1045630934230430123564967727561879636313632572860308141148916823623857485539030732842184020730832402954150728063395343235675323872844060241693523309937644367927148746609379972594695724748307614411927354894560274851092309837783631979473565211986077998172130642985544856916466289499122507998234797389352880068755831879967991410104503890284745546806562662515716757418665575794868276215622523758916787734772513534078799295959425188263459498141141248682966943287525946079651552749950516117859104438486509882536695913675805784046898144421249076605153832122994754080633848036061680444153015290760706479123992069710463756802543424490681547722034575274792794111418164240118133465035189552623671457371847894226883113470801324452803093840541354185529782099048685052473100345783950434147775528397964869237640551370790712396032713902629805412213626636120716582886664243283519339427964842886070908301452077508173262094258443352747418509859889511634336817395785023626579820106935694922059338022267209306377776575555365133698122787635065412599803982414979977245369407181130510510014638914891084582205410105068588202270811720401146576193308491674479539838024632453848030910900659544502612149110485357521382575143910701418487975266240710803871402371033003345246736288225878574645957033794360947049926765757314595578218855419041133850386900402423374284614678586782078038491956034876594278520413228345824635936340139926088638133424206479606304591401280206564697356018602101259600500389979425634172448224710498619389255127593474007122007780016782000890615421677673989243995269061153623988692171404420315620010277338285753243192227010770857021869806446216258287422496789400489711632145837003147892834583305157227177117696983129849092266276724535829034806432984092383397442092189518162770241974808147952773787430434739328539304862343736555736286019830944982726215229417175163697270929700223015830871467734971670202260649935939334854777960933111014978187826554127714285746351368683738509619837471747588781597038345186146478003189649181874341657026420334603131455651259317902236278625120191636024197000703058325160358379577863617912152507924320539283978546680983137140612754579289181767920450394569588936051121323980429730120919259688731368998914000296902639401194666691841245796261093079316516147653028091035013973618563151081230968054119023771103400717360832167043548306669415008131421754994177582444164748915946553555549681963372938384421830835434323300669903960118034881998260226031583362297010190764481051207548982910144309535318528063042626409489380733042995202734791242295512033244274401730638616292140861415578945264501668199609156948158903848324518139144657286722757839101008082295346982926003897566651597431359089623906626664583004951074500379084125558823350070950635534987461862182428544851511344530773339564792087156038729962189487884333955174438603012497142028831834011883015635835428461117662911714739079042372685043885893815695990157071791063747159206053668844729075355918516871229059538308310731456110407095821871864588717718564317160028845398866239954823768088031640012210172947671528178910

/-- Literal value of the bound table after 25 backups. -/
def btabL25 : Nat := 1089198903160128604564116274448859540984658820344267615565514092122586663725118086142999077631944278636748033634266162924266671748140487985696131922625862981294234902961435927802144456835398592942007926442934140664182438578599081675560001501492945306882907703844335547036072547359144639808563425267299881928317520168085340516710685625194759360181791895663177918039076059962578846235532562632011750749671245077300599530193694519307719223025894120879596834460404972063718940627176258715617112556659468172555491705549167290808405845287687679331952792457094135225286173782732597114294622325179045305598650244789638085779569577537407204397322078944803716773454721568611703143771737230383069242203806994076132407460741327983832371691328132844294703387972889354795768622027561045231233887315504317721467138466190487178658610978889860344799503851267332150821965430599550173431379136845906866513799834540740019498249931481185239353303715422175017174076936322536830885263456948795839350971427581550605859998124430185591590497062151096875280084037946126189775519943717703024936996654194163080938478469258107236890831179354034121431425821398014390726494621006588466087249717732081020739504969852611945232460226596100866123670632262283377030818689841004215732129440960255321705342110564922473272089645107578133789563621310599561533038433198509075946787397571801893867884706658398539360237995980522377125591891872903006806414100513202958719191041664165474623606534007268076772440534014773184647343802292003062180155955129619541497623269738418402396789767242707015522169067464873616705711257879043749956049388181189869515106428307476349688079067252728348958245191129299279676447487196283696454002237272965694110187364687024323627796993529948057916703282180257024041880938426693199016655624702717077550239551181273986674952274207712589677675247775831306554658338755527370359706827095791359569205367054230271688765803198122866485713896445288083003657817961416576899082137803530050353178854573784903136358780522151726164193263898084767714835296588880070170850472171848400720524596787873001482272405441570663857564806707472671875429504483779816292660015684803702611669892189330215769713749697041291084635241734144481074390620290220271399924397589390499010378525913634973869831998272041971757948348726482832656644088313030959446865912503983261394485038834150395416191298467555750064796896639486825697813103242277732262720020452145585595745712006617833267397690996637263419098599592290508213172092523563862567857828546852801585495196369740337913005045215612790019071476418859243116501580139657428536361931098869418796046759756973186500839598573382165082105344087684701623978405874730419913658957759224496911591752252751650097819860279350347354346475942627753838078281829263572940534832787544337308522863849786188210995181461349052344558874593028008746568475426375454213320676666392485162718858220980683514824043269283511557271047702728927907008114234057116095393391206500675733784140069010839466021121582590656954585237874175437472843033733462124378488791388350257185862188938750541555625207183341520175

/-- Literal value of the bound table after 26 backups. -/
def btabL26 : Nat := 1132766872089827085563264821335839445655685067828227089982111360621315841911205439443814134533056154319345339205136982612858019623436915729698740535314081594661321059313491883009593188922489571472088497991308006477272567319414531371646437790999812615593684764703126237155678805219166771618892053145246883787879208456202689623316867360104773173557021128810639078659486544130289416255442601505106713764569976620522399764427963850351978947910646993076226725633283998047786328504402001313375120674832426462574287497422528797569913546154126282058751752791193516369938499529403513784436229359597384132073308419868812414756595730584132861072609582614814639435491278897105272822508284908142467027035766093925381701450681331514861649542114911503059624676897093657118436898271171656314692246233043766205293725561590261961284508055149915277385381066413947718757266617915581007434793430805742824726147591573306776902241419609623060196747541332715697530758087621447081950419978202669619363920587953794833943420693495237485058206489236781150756185660912275134181632706304895539859354393497241579671546833447626271510850638306921666669543151121549241614964609559328901263598775919659429329899454347702507889776542490783244272075023813762882659266346678663184727970656041935997453650426768897896617413532900560689360271823580065272679176463973643867278896208361525749243813378440202800200062763615220118314843643819717375479403994546799612846980803121766251891194465913276553044491088603912196846462894085386735105184316785231960987466522694835914178157856811424787049069073776123244719251111337771879901821438076626495837985845844095677506351688289198410493993592858108847720749137389419500073421169388704211102677746244199554989317262524067081026973580268130650641669687335223627791336441257481381313048667623219434045042204678869443069330664606679886894087260335891043448483953968566888266942999136790341116881670456910878193466859779561187819489081795118868051812906923321591086520237399981024675679215858156974325196878614295193772644172843157008886049685025794565162424073384109978767544107824816167356750035551327431598351084647020348606773350386470264610585205089478663618977104824493646118149159487859232027861980891709173800934794881878358619562385135428701943402903464767427368243669361930651339669613474980687925677705984195419388252716836133747284075927520103368707838799101391207230877290538001908975758077531352786769660588578912365864891421875239644839936973152997654129333994282646673928166674183561293635671864676438049416520709698182584835408161595422974199758885877584218456431721336323258646829017845746763844731038242916005646071543518082680490117710741378544480334989514551427171586073146413676289013055975695743634192572801129948852806492707891610893607803392660129765534383168799036857198275766659374726928261301722062318698347840253766397809519320901954689602287980843704117933347459524650429498209511642159823859156677050485031580728744156622392212361621150449872503934854449857798763379926479010356968348902607088728132183910460559547956289845861070901077466695154861440

/-- Literal value of the bound table after 27 backups. -/
def btabL27 : Nat := 1176334841019525566562413368222819350326711315312186564398708629120045020097292792744629191434168030001942644776007802301449367498733343473701349148002300208028407215665547838217041921009580550002169069539681872290362696060229981067732874080506679924304461825561916927275285063079188903429220681023193885647440896744320038729923049095014786986932250361958100239279897028297999986275352640378201676779468708163744199998662233181396238672795399865272856616806163024031853716381627743911133128793005384752593083289295890304331421247020564884785550713125292897514590825276074430454577836394015722958547966594947986743733621883630858517747897086284825562097527836225598842501244832585901864811867725193774630995440621335045890927392901690161824545965821297959441105174514782267398150605150583214689120312656990036743910405131409970209971258281560563286692567805231611841438207724765578782938495348605873534306232907738060881040191367243256377887439238920357333015576499456543399376869748326039062026843262560289378525915916322465426232287283878424078587745468892088054781712132800320078404615197637145306130870097259809211907660480845084092503434598112069336439947834107237837920293938842793070547092858385465622420479415365242388287714003516322153723811871123616673201958742972873319962737420693543244930980025849530983825314494748778658611005019151249604619742050222007061039887531249917859504095395766531744152393888580396266974770564579367029158782397819285029316541643193051209045581985878770408030212678440844380477309775651253425959525946380142558575969080087372872732790964796500009847593487972063122160865263380715005324624309325668472029741994586918415765050787582555303692840101504442728095168127801374786350837531518186104137243878356004277241458436243754056566017257812245685075857784065164881415132135150026296460986081437528467233516181916254716537261080841342416964680631219350410544997537715698889901219823113834292635320345628821159204543676043113131819861620226177146214999651194162222486200493330505619830453049097433947601248897879740729604323549980346956052815810208061670855935264395182191321272664810260880920886685088136826609500517989627111468240459951946001151663077241573982981333341493198076201945192174366218228746244357222430016973808657492882978538989997378470022695138636930416404489499464407577382020394838117099151960556572650987350880701563295588763941477833726085688796134610559987943575465151206898462385152753842026260775346713704800045495896041729485288475519820269785685848532983135760920036374180752379651744846771986705283016191615511008376501511573777098497611275934520341188622477912449846210037742948480659356257015608026669047011021269878357431580394040075702480206251672041139914038669659632143867534703586519648846680773997775922222545902487811885503401370071969697109297648010416115890828220254132078582298361975411424216485717740706724721042651649765789301725371320555391740710199120043853967768066281812569050640583173290060278986748126309058642941521978782583241093664071752053077775576432570861910050390752971600246529726206968202705

/-- Literal value of the bound table after 28 backups. -/
def btabL28 : Nat := 1219902809949224047561561915109799254997737562796146038815305897618774198283380146045444248335279905684539950346878621990040715374029771217703957760690518821395493372017603793424490653096671528532249641088055738103452824801045430763819310370013547233015238886420707617394891320939211035239549308901140887507002585032437387836529230829924800800307479595105561399900307512465710556295262679251296639794367439706966000232896502512440498397680152737469486507979042050015921104258853486508891136911178343042611879081169251811092928947887003487512349673459392278659243151022745347124719443428434061785022624770027161072710648036677584174423184589954836484759564393554092412179981380263661262596699684293623880289430561338576920205243688468820589467254745502261763773450758392878481608964068122663172946899752389811526536302207670025142557135496707178854627868992547642675441622018725414741150843105638440291710224395866498701883635193153797058244120390219267584080733020710417179389818908698283290110265831625341271993625343408149701708388906844573022993858231479280569704069872103398577137683561826664340750889556212696757145777810568618943391904586664809771616296892294816246510688423337883633204409174280148000568883806916721893916161660353981122719653086205297348950267059176848743308061308486525800501688228118996694971452525523913449943113829940973459995670722003811321879712298884615600693347147713346112825383782613992921102560326036967806426370329725293505588592197782190221244701077672154080955241040096456799967153028607670937740894035948860330102869086398622500746330818255228139793365537867499748483744680917334333142896930362138533565490396315727983809352437775691107312259033620181245087658509358550017712357800512305127247514176443877903841247185152284485340698074367009988838666900507110328785222065621183149852641498268377047572945103496618389626038207714117945662418263301910479973113404974486901608972786448107397451151609462523450357274445162904672553203003052373267754320086530167470647204108046716045888261925351710886316448110733686894046223026576583933338087512591307174355120493239036951044194244973501413235000019789803388608415830889775559317503815079398356185176994995288733934804702094686978602955589466854077837930103579016158090544713850218338588834310632826288705720663798880144883301292944619735375788072840100451019845185625198605993922604025199970297005665129450262401834191689767189117490341723501431059878883632444407681613720274411945961657797800812296648784365456978277736025201289833472423552038663322174468081531948550436366273497353437798296571301811230938348393534023293918532513917581983686774003942378878638222396320474674793613687053025205287691574714933737728671399447368386536193884766518134338882262914465147686799753744602891714679557421806824734149604464377280019491667034719110169462958092668010390766787204629920893743369147500569745324151955840006928173952533129468623657561241563037222903955403819468515709068804725429670685469561398168259487119664031086156125218979240897017427418968954681164272144491660082129591981985718781543970

/-- Literal value of the bound table after 29 backups. -/
def btabL29 : Nat := 1263470778878922528560710461996779159668763810280105513231903166117503376469467499346259305236391781367137255917749441678632063249326198961706566373378737434762579528369659748631939385183762507062330212636429603916542953541860880459905746659520414541726015947279498307514497578799233167049877936779087889366564273320554736943135412564834814613682708828253022560520717996633421126315172718124391602809266171250187800467130771843484758122564905609666116399151921075999988492136079229106649145029351301332630674873042613317854436648753442090239148633793491659803895476769416263794861050462852400611497282945106335401687674189724309831098472093624847407421600950882585981858717927941420660381531643393473129583420501342107949483094475247479354388543669706564086441727002003489565067322985662111656773486847789586309162199283930080075143012711853794422563170179863673509445036312685250699363190862671007049114215883994936522727079019064337738600801541518177835145889541964290959402768069070527518193688400690393165461334770493833977184490529810721967399970994066473084626427611406477075870751926016183375370909015165584302383895140292153794280374575217550206792645950482394655101082907832974195861725490174830378717288198468201399544609317191640091715494301286978024698575375380824166653385196279508356072396430388462406117590556299048241275222640730697315371599393785615582719537066519313341882598899660160481498373676647589575230350087494568583693958261631301981860642752371329233443820169465537753880269401752069219456996281564088449522262125517578101629769092709872128759870671713956269739137587762936374806624098453953660961169551398608595101238798044537551853654087968826910931677965735919762080148890915725249073878069506424150357784474531751530441035934060814914115378890921774292601476016949055776155311996092340003244296915099225627912374025076982062714815334586893474360155895384470549401229272233274913316725749782380502266982873296225741510005214282696213286544385878569389293640521866172718808207722762926471946070801605987825031647323587633058488122503172820910623359214974552677854305722082891710767115825136741945549113354491469950607331143789924007166767170206850711218690912749003484888276062696175881003965986759341937447113962800809886164115619042943794199129631268274107388746188960829873362113086424831893369555750842083802887729814677746224636964506487104351830069852425174439114872248768974390291405218295795963657372614511046789102452093835119091877819699559895108009093211093686769786201869596531183927067703145891969284418217125114167449530803091364588216641092048684778199175792112067495876405357251517527337970141809276617088535625341322918180363084780532217951569035827399754862592643064731932473730863376636533896991125343775724752826715208007507136568941125837582795807558682590341874036421427804223035087965081888702951276047284430363270252577260432765927261260030248067046179694938381855574412284006030591840142741357124462367497026277569281091952374670027460331297806083389729009344294410041981777062361476791466634238592567192658937434245230594885235

/- ## Shared helper lemmas -/

/-- `swapAgents` fixes the sorted position pair. -/
theorem sortedPositions_swapAgents (s : part2.NetworkState) :
    s.swapAgents.sortedPositions = s.sortedPositions := by
  cases s with
  | mk h e o p a d =>
    simp only [part2.NetworkState.swapAgents, part2.NetworkState.sortedPositions,
      part2.NetworkState.human_position, part2.NetworkState.elephant_position]
    by_cases h1 : e < h <;> by_cases h2 : h < e <;> simp only [if_pos, if_neg, h1, h2, if_true, if_false]
    · exact absurd h2 (by omega)
    · have heq : h = e := by omega
      rw [heq]

/-- `swapAgents` fixes the open-set. -/
theorem swapAgents_open_valves (s : part2.NetworkState) :
    s.swapAgents.open_valves = s.open_valves := by
  cases s; rfl

/-- `swapAgents` fixes the depth. -/
theorem swapAgents_depth (s : part2.NetworkState) :
    s.swapAgents.depth = s.depth := by
  cases s; rfl

/- ## Claim theorems (first batch) -/

/-- C1: for every network, plan and horizon ≥ 1 the single-agent
simulator's result is exactly `horizon − 1` iterations of the
act-then-accrue tick `part1.simTick` (which resolves the scheduled action
before adding the open-valve flow); at horizon 1 both simulators return a
score of 0 for every plan; and on the concrete network `netA` a valve
opened on a tick already contributes its flow on that same tick
(accrual happens after the action is resolved). -/
theorem C1_act_then_accrue_ticks :
    (∀ net plan minutes, 1 ≤ minutes →
      part1.total_pressure_released net plan minutes =
        some ((part1.simRun net plan 0 (minutes - 1)
          ⟨net.start_position, 0, 0⟩).map part1.SimSt.released)) ∧
    (∀ net plan, part1.total_pressure_released net plan 1 =
      some (Except.ok 0)) ∧
    (∀ net plan, part2.total_pressure_released net plan 1 =
      some (Except.ok 0)) ∧
    part1.total_pressure_released netA [ValveAction.Open] 2 =
      some (Except.ok 5) := by
  refine ⟨?_, ?_, ?_, ?_⟩
  · intro net plan minutes h
    rw [part1.total_pressure_released, if_neg (by omega)]
  · intro net plan; rfl
  · intro net plan; rfl
  · rfl

/-- Witness for C1 at a concrete input. -/
theorem C1_act_then_accrue_ticks_witness :
    1 ≤ 3 ∧ part1.total_pressure_released netA [] 3 =
      some ((part1.simRun netA [] 0 (3 - 1)
        ⟨netA.start_position, 0, 0⟩).map part1.SimSt.released) :=
  ⟨by decide, C1_act_then_accrue_ticks.1 netA [] 3 (by decide)⟩

/-- C9: at horizon 0 the tick-count expression `minutes - 1` underflows
`usize`, so both simulators panic (the `none` branch of the embedding)
instead of returning a value or an error. -/
theorem C9_horizon_zero_panics :
    ∀ net (plan1 : List ValveAction)
      (plan2 : List (ValveAction × ValveAction)),
      part1.total_pressure_released net plan1 0 = none ∧
      part2.total_pressure_released net plan2 0 = none := by
  intro net p1 p2
  exact ⟨rfl, rfl⟩

/-- C5: swapping the human and elephant positions of a dual-agent search
state yields a state that `part2`'s `PartialEq` deems equal to the
original and whose `Hash` key sequence is identical. -/
theorem C5_canonical_key_swap_invariant :
    ∀ s : part2.NetworkState,
      part2.NetworkState.stateEq s.swapAgents s = true ∧
      s.swapAgents.hashKey = s.hashKey := by
  intro s
  constructor
  · simp [part2.NetworkState.stateEq, sortedPositions_swapAgents,
      swapAgents_open_valves, swapAgents_depth]
  · simp [part2.NetworkState.hashKey, sortedPositions_swapAgents,
      swapAgents_open_valves, swapAgents_depth]

/-- Extending a successful run: if the first `m` ticks starting at plan
index `start` succeed, a run of `m + k` ticks continues from the reached
state at plan index `start + m`. -/
theorem part1.simRun_ok_extend (net : ValveNetwork) (plan : List ValveAction) :
    ∀ m start st st', part1.simRun net plan start m st = Except.ok st' →
      ∀ k, part1.simRun net plan start (m + k) st =
        part1.simRun net plan (start + m) k st' := by
  intro m
  induction m with
  | zero =>
    intro start st st' h k
    simp only [part1.simRun, Except.ok.injEq] at h
    subst h
    rw [Nat.zero_add, Nat.add_zero]
  | succ m ih =>
    intro start st st' h k
    rw [show m + 1 + k = (m + k) + 1 from by omega]
    simp only [part1.simRun] at h ⊢
    cases htick : part1.simTick net st (plan.get? start) with
    | error e => rw [htick] at h; exact absurd h (by simp [Except.bind])
    | ok st1 =>
      rw [htick] at h
      simp only [Except.bind] at h ⊢
      rw [ih (start + 1) st1 st' h k,
        show start + 1 + m = start + (m + 1) from by omega]

/-- Ticks past the end of the plan perform no action and accrue the flow
of the currently-open valves, leaving position and open-set unchanged. -/
theorem part1.simRun_pad (net : ValveNetwork) (plan : List ValveAction) :
    ∀ k start p o r, plan.length ≤ start →
      part1.simRun net plan start k ⟨p, o, r⟩ =
        Except.ok ⟨p, o, r + openFlow net o * k⟩ := by
  intro k
  induction k with
  | zero => intro start p o r _; simp [part1.simRun]
  | succ k ih =>
    intro start p o r h
    have hnone : plan.get? start = none := List.get?_eq_none.mpr h
    simp only [part1.simRun, hnone, part1.simTick, Except.bind]
    have harith : r + openFlow net o + openFlow net o * k =
        r + openFlow net o * (k + 1) := by ring
    rw [ih (start + 1) p o (r + openFlow net o) (by omega), harith]

/-- Part-2 version of `part1.simRun_ok_extend`. -/
theorem part2.simRun_pair_ok_extend (net : ValveNetwork)
    (plan : List (ValveAction × ValveAction)) :
    ∀ m start st st', part2.simRun net plan start m st = Except.ok st' →
      ∀ k, part2.simRun net plan start (m + k) st =
        part2.simRun net plan (start + m) k st' := by
  intro m
  induction m with
  | zero =>
    intro start st st' h k
    simp only [part2.simRun, Except.ok.injEq] at h
    subst h
    rw [Nat.zero_add, Nat.add_zero]
  | succ m ih =>
    intro start st st' h k
    rw [show m + 1 + k = (m + k) + 1 from by omega]
    simp only [part2.simRun] at h ⊢
    cases htick : part2.simTick net st (plan.get? start) with
    | error e => rw [htick] at h; exact absurd h (by simp [Except.bind])
    | ok st1 =>
      rw [htick] at h
      simp only [Except.bind] at h ⊢
      rw [ih (start + 1) st1 st' h k,
        show start + 1 + m = start + (m + 1) from by omega]

/-- Part-2 version of `part1.simRun_pad`. -/
theorem part2.simRun_pair_pad (net : ValveNetwork)
    (plan : List (ValveAction × ValveAction)) :
    ∀ k start hp ep o r, plan.length ≤ start →
      part2.simRun net plan start k ⟨hp, ep, o, r⟩ =
        Except.ok ⟨hp, ep, o, r + openFlow net o * k⟩ := by
  intro k
  induction k with
  | zero => intro start hp ep o r _; simp [part2.simRun]
  | succ k ih =>
    intro start hp ep o r h
    have hnone : plan.get? start = none := List.get?_eq_none.mpr h
    simp only [part2.simRun, hnone, part2.simTick, Except.bind]
    have harith : r + openFlow net o + openFlow net o * k =
        r + openFlow net o * (k + 1) := by ring
    rw [ih (start + 1) hp ep o (r + openFlow net o) (by omega), harith]

/-- A plan consisting only of `Open` pairs never makes a part-2 run fail:
`Open` is resolved unconditionally. -/
theorem part2.simRun_allOpens (net : ValveNetwork)
    (plan : List (ValveAction × ValveAction)) :
    ∀ n start st,
      plan.all (fun p =>
        p.1 == ValveAction.Open && p.2 == ValveAction.Open) = true →
      ∃ st', part2.simRun net plan start n st = Except.ok st' := by
  intro n
  induction n with
  | zero => intro start st _; exact ⟨st, rfl⟩
  | succ n ih =>
    intro start st hall
    cases hget : plan.get? start with
    | none =>
      simp only [part2.simRun, hget, part2.simTick, Except.bind]
      exact ih (start + 1) _ hall
    | some p =>
      have hp := List.get?_mem hget
      have hmem := List.all_eq_true.mp hall p hp
      obtain ⟨p1, p2⟩ := p
      simp only [Bool.and_eq_true, beq_iff_eq] at hmem
      obtain ⟨h1, h2⟩ := hmem
      subst h1; subst h2
      simp only [part2.simRun, hget, part2.simTick, part2.resolveHuman,
        part2.resolveElephant, Except.bind, Except.map]
      exact ih (start + 1) _ hall

/-- Association-list lookup misses every key absent from the first
components. -/
theorem lookup_eq_none_of_not_mem {α β : Type} [BEq α] [LawfulBEq α] (a : α) :
    ∀ l : List (α × β), a ∉ l.map Prod.fst → l.lookup a = none := by
  intro l
  induction l with
  | nil => intro _; rfl
  | cons hd tl ih =>
    intro h
    simp only [List.map_cons, List.mem_cons] at h
    push_neg at h
    obtain ⟨h1, h2⟩ := h
    simp only [List.lookup]
    have hbeq : (a == hd.1) = false := beq_eq_false_iff_ne.mpr h1
    rw [hbeq]
    exact ih h2

/-- C3 counterexample: on the two-valve network `netB` the dual-agent
simulator *accepts* the plan in which both co-located agents open the
same zero-flow valve in the same tick — an `Open` of a zero-flow valve,
an `Open` that re-opens an (already just-opened) valve and a conflicting
double-open all at once — returning `Ok 0` instead of the `IllegalAction`
error the claim requires. -/
theorem C3_counterexample_open_never_validated :
    part2.total_pressure_released netB
      [(ValveAction.Open, ValveAction.Open)] 2 = some (Except.ok 0) := by
  rfl

/-- C3 amended: the dual-agent simulator validates only `MoveTo` actions;
`Open` actions are resolved unconditionally (the open-set bit is simply
set), so a plan containing only `Open` pairs — including double-opens of
the same co-located valve, re-opens and zero-flow opens — always returns
`Ok`, never `IllegalAction`. -/
theorem C3_only_moves_are_validated :
    ∀ net (plan : List (ValveAction × ValveAction)) minutes,
      1 ≤ minutes →
      plan.all (fun p =>
        p.1 == ValveAction.Open && p.2 == ValveAction.Open) = true →
      isOkResult (part2.total_pressure_released net plan minutes) = true := by
  intro net plan minutes hmin hall
  obtain ⟨st', hrun⟩ := part2.simRun_allOpens net plan (minutes - 1) 0
    ⟨net.start_position, net.start_position, 0, 0⟩ hall
  rw [part2.total_pressure_released, if_neg (by omega), hrun]
  rfl

/-- Witness for C3's amended theorem at a concrete input. -/
theorem C3_only_moves_are_validated_witness :
    1 ≤ 2 ∧
    ([((ValveAction.Open : ValveAction), (ValveAction.Open : ValveAction))].all
      (fun p => p.1 == ValveAction.Open && p.2 == ValveAction.Open) = true) ∧
    isOkResult (part2.total_pressure_released netB
      [(ValveAction.Open, ValveAction.Open)] 2) = true :=
  ⟨by decide, by decide,
    C3_only_moves_are_validated netB [(ValveAction.Open, ValveAction.Open)] 2
      (by decide) (by decide)⟩

/-- C4: if the first invariant-violating action of a plan is a `MoveTo`,
at a tick index `m` earlier than `horizon − 1` (so the simulation reaches
tick `m` without error), to a valve that is not a graph neighbour of the
agent's position at that tick, then the simulator returns the
`IllegalAction` error — it neither continues nor clamps.  Stated for the
single-agent simulator and, in the dual-agent simulator, for both a bad
move in the human slot and a bad move in the elephant slot (in the
latter case the human's action of that tick resolves without error, so
the elephant's move is the first violating action; its position is
checked after the human's action has been applied). -/
theorem C4_bad_move_fails_with_error :
    (∀ net (plan : List ValveAction) minutes m v st,
      m < minutes - 1 →
      part1.simRun net plan 0 m ⟨net.start_position, 0, 0⟩ = Except.ok st →
      plan.get? m = some (ValveAction.MoveTo v) →
      (edgesOf net st.pos).contains v = false →
      part1.total_pressure_released net plan minutes =
        some (Except.error "Cannot move to valve from current valve")) ∧
    (∀ net (plan : List (ValveAction × ValveAction)) minutes m v ea st,
      m < minutes - 1 →
      part2.simRun net plan 0 m
        ⟨net.start_position, net.start_position, 0, 0⟩ = Except.ok st →
      plan.get? m = some (ValveAction.MoveTo v, ea) →
      (edgesOf net st.human_position).contains v = false →
      part2.total_pressure_released net plan minutes =
        some (Except.error "Cannot move to valve from current valve")) ∧
    (∀ net (plan : List (ValveAction × ValveAction)) minutes m ha v st st1,
      m < minutes - 1 →
      part2.simRun net plan 0 m
        ⟨net.start_position, net.start_position, 0, 0⟩ = Except.ok st →
      plan.get? m = some (ha, ValveAction.MoveTo v) →
      part2.resolveHuman net st ha = Except.ok st1 →
      (edgesOf net st1.elephant_position).contains v = false →
      part2.total_pressure_released net plan minutes =
        some (Except.error "Cannot move to valve from current valve")) := by
  refine ⟨?_, ?_, ?_⟩
  · intro net plan minutes m v st hm hrun hget hcont
    have hsplit : minutes - 1 = m + (minutes - 1 - m - 1 + 1) := by omega
    rw [part1.total_pressure_released, if_neg (by omega), hsplit,
      part1.simRun_ok_extend net plan m 0 _ st hrun, Nat.zero_add]
    simp only [part1.simRun, hget, part1.simTick]
    rw [if_neg (by rw [hcont]; exact Bool.false_ne_true)]
    rfl
  · intro net plan minutes m v ea st hm hrun hget hcont
    have hsplit : minutes - 1 = m + (minutes - 1 - m - 1 + 1) := by omega
    rw [part2.total_pressure_released, if_neg (by omega), hsplit,
      part2.simRun_pair_ok_extend net plan m 0 _ st hrun, Nat.zero_add]
    simp only [part2.simRun, hget, part2.simTick, part2.resolveHuman]
    rw [if_neg (by rw [hcont]; exact Bool.false_ne_true)]
    rfl
  · intro net plan minutes m ha v st st1 hm hrun hget hresolve hcont
    have hsplit : minutes - 1 = m + (minutes - 1 - m - 1 + 1) := by omega
    rw [part2.total_pressure_released, if_neg (by omega), hsplit,
      part2.simRun_pair_ok_extend net plan m 0 _ st hrun, Nat.zero_add]
    simp only [part2.simRun, hget, part2.simTick, hresolve,
      part2.resolveElephant, Except.bind]
    rw [if_neg (by rw [hcont]; exact Bool.false_ne_true)]
    rfl

/-- Witness for C4 at concrete inputs: a `MoveTo 5` from the start of the
two-valve network `netA` (whose only neighbour is valve `1`), in the
single-agent plan, in the dual-agent human slot, and in the dual-agent
elephant slot (after the human's `Open` resolves). -/
theorem C4_bad_move_fails_with_error_witness :
    part1.total_pressure_released netA [ValveAction.MoveTo 5] 2 =
      some (Except.error "Cannot move to valve from current valve") ∧
    part2.total_pressure_released netA
      [(ValveAction.MoveTo 5, ValveAction.Open)] 2 =
      some (Except.error "Cannot move to valve from current valve") ∧
    part2.total_pressure_released netA
      [(ValveAction.Open, ValveAction.MoveTo 5)] 2 =
      some (Except.error "Cannot move to valve from current valve") :=
  ⟨C4_bad_move_fails_with_error.1 netA [ValveAction.MoveTo 5] 2 0 5 _
      (by decide) rfl rfl (by decide),
    C4_bad_move_fails_with_error.2.1 netA
      [(ValveAction.MoveTo 5, ValveAction.Open)] 2 0 5 ValveAction.Open _
      (by decide) rfl rfl (by decide),
    C4_bad_move_fails_with_error.2.2 netA
      [(ValveAction.Open, ValveAction.MoveTo 5)] 2 0 ValveAction.Open 5
      ⟨0, 0, 0, 0⟩ ⟨0, 0, 1, 0⟩
      (by decide) rfl rfl rfl (by decide)⟩

/-- C10: the simulators accept legal plans shorter than `horizon − 1`
(including the empty plan): once the plan is exhausted each remaining
tick performs no action but still accrues the flow of the currently-open
valves, so the score is the score of the executed plan plus
`flow × (horizon − 1 − length)` — i.e. the plan behaves as if extended
with do-nothing ticks up to the horizon. -/
theorem C10_short_plans_accrue_padding :
    (∀ net (plan : List ValveAction) minutes st,
      1 ≤ minutes → plan.length ≤ minutes - 1 →
      part1.simRun net plan 0 plan.length
        ⟨net.start_position, 0, 0⟩ = Except.ok st →
      part1.total_pressure_released net plan minutes =
        some (Except.ok (st.released +
          openFlow net st.open_valves * (minutes - 1 - plan.length)))) ∧
    (∀ net (plan : List (ValveAction × ValveAction)) minutes st,
      1 ≤ minutes → plan.length ≤ minutes - 1 →
      part2.simRun net plan 0 plan.length
        ⟨net.start_position, net.start_position, 0, 0⟩ = Except.ok st →
      part2.total_pressure_released net plan minutes =
        some (Except.ok (st.released +
          openFlow net st.open_valves * (minutes - 1 - plan.length)))) := by
  constructor
  · intro net plan minutes st hmin hlen hrun
    obtain ⟨p, o, r⟩ := st
    set k := minutes - 1 - plan.length with hkdef
    have hk : minutes - 1 = plan.length + k := by omega
    rw [part1.total_pressure_released, if_neg (by omega), hk,
      part1.simRun_ok_extend net plan plan.length 0 _ _ hrun, Nat.zero_add,
      part1.simRun_pad net plan _ _ _ _ _ (by omega)]
    rfl
  · intro net plan minutes st hmin hlen hrun
    obtain ⟨hp, ep, o, r⟩ := st
    set k := minutes - 1 - plan.length with hkdef
    have hk : minutes - 1 = plan.length + k := by omega
    rw [part2.total_pressure_released, if_neg (by omega), hk,
      part2.simRun_pair_ok_extend net plan plan.length 0 _ _ hrun, Nat.zero_add,
      part2.simRun_pair_pad net plan _ _ _ _ _ _ (by omega)]
    rfl

/-- Witness for C10 at concrete inputs: the empty plan at horizon 3. -/
theorem C10_short_plans_accrue_padding_witness :
    part1.total_pressure_released netA [] 3 =
      some (Except.ok ((0 : Nat) + openFlow netA 0 * (3 - 1 - 0))) ∧
    part2.total_pressure_released netA [] 3 =
      some (Except.ok ((0 : Nat) + openFlow netA 0 * (3 - 1 - 0))) :=
  ⟨C10_short_plans_accrue_padding.1 netA [] 3 ⟨0, 0, 0⟩
      (by decide) (by decide) rfl,
    C10_short_plans_accrue_padding.2 netA [] 3 ⟨0, 0, 0, 0⟩
      (by decide) (by decide) rfl⟩

/-- C8 counterexample: feeding the index-assignment phase of
`ValveNetwork::from_str` a parsed description without the identifier
`"AA"` makes it *panic* (the modelled `none`): the `Option::unwrap` on
the failed `find` aborts, so no `ParseError` value is ever returned to
the caller. -/
theorem C8_counterexample_missing_start_panics :
    fromStrParsed [("BB", 0, ["BB"])] = none := by
  rfl

/-- C8 amended: whenever `"AA"` is absent from the parsed description,
building the network panics (`Option::unwrap` on `None`, the `none`
branch) rather than returning a `ParseError` to the caller. -/
theorem C8_missing_start_panics :
    ∀ lines : List (String × Nat × List String),
      "AA" ∉ lines.map (fun l => l.1) →
      fromStrParsed lines = none := by
  intro lines h
  have hsorted : "AA" ∉
      ((lines.map (fun l => l.1)).dedup).insertionSort (fun a b => a < b) := by
    intro hmem
    exact h (List.mem_dedup.mp
      ((List.perm_insertionSort (fun a b => a < b) _).mem_iff.mp hmem))
  have hlookup :
      ((((lines.map (fun l => l.1)).dedup).insertionSort (fun a b => a < b)).zip
        (List.range (((lines.map (fun l => l.1)).dedup).insertionSort
          (fun a b => a < b)).length)).lookup "AA" = none := by
    apply lookup_eq_none_of_not_mem
    rw [List.map_fst_zip _ _ (by rw [List.length_range])]
    exact hsorted
  rw [fromStrParsed]
  simp only [hlookup]

/-- Witness for C8's amended theorem at a concrete input. -/
theorem C8_missing_start_panics_witness :
    "AA" ∉ ([("BB", 0, ["BB"])].map
      (fun l : String × Nat × List String => l.1)) ∧
    fromStrParsed [("BB", 1, ["BB"])] = none :=
  ⟨by decide, C8_missing_start_panics [("BB", 1, ["BB"])] (by decide)⟩

/- ## Search-chain lemmas -/

/-- `mkChild` increments the depth. -/
theorem mkChild_depth (p : part1.NetworkState) (a : ValveAction) :
    (part1.mkChild p a).depth = p.depth + 1 := by
  cases a <;> rfl

/-- The action chain of a child extends the parent's by its action. -/
theorem mkChild_actionChain (p : part1.NetworkState) (a : ValveAction) :
    (part1.mkChild p a).actionChain = p.actionChain ++ [a] := by
  cases a <;> cases p <;> rfl

/-- The Open child built by `expand` is a member of the expansion when
the expansion guard holds. -/
theorem mem_expand_open (p : part1.NetworkState) (net : ValveNetwork)
    (h1 : openValves_is_open p.open_valves p.current_position = false)
    (h2 : 0 < flowRateOf net p.current_position) :
    part1.mkChild p ValveAction.Open ∈ part1.expand p net := by
  unfold part1.expand
  rw [if_pos (by simp [h1, h2])]
  exact List.mem_append_left _ (List.mem_singleton.mpr rfl)

/-- Each MoveTo child built by `expand` is a member of the expansion. -/
theorem mem_expand_move (p : part1.NetworkState) (net : ValveNetwork)
    (v : Nat) (h : v ∈ edgesOf net p.current_position) :
    part1.mkChild p (ValveAction.MoveTo v) ∈ part1.expand p net := by
  unfold part1.expand
  exact List.mem_append_right _ (List.mem_map.mpr ⟨v, h, rfl⟩)

/-- Inversion of `expand` membership: every child is `mkChild` for an
action that is legal (in the `legalFrom` sense) at the parent's position
and open-set. -/
theorem expand_inv {p c : part1.NetworkState} {net : ValveNetwork}
    (h : c ∈ part1.expand p net) :
    ∃ a, c = part1.mkChild p a ∧
      legalFrom net p.current_position p.open_valves [a] = true := by
  unfold part1.expand at h
  rcases List.mem_append.mp h with h | h
  · by_cases hcond :
      (!(openValves_is_open p.open_valves p.current_position) &&
        decide (0 < flowRateOf net p.current_position)) = true
    · rw [if_pos hcond] at h
      refine ⟨ValveAction.Open, (List.mem_singleton.mp h).symm ▸ rfl, ?_⟩
      simp only [legalFrom, Bool.and_eq_true] at hcond ⊢
      exact ⟨hcond, trivial⟩
    · rw [if_neg hcond] at h
      cases h
  · obtain ⟨v, hv, rfl⟩ := List.mem_map.mp h
    refine ⟨ValveAction.MoveTo v, rfl, ?_⟩
    simp only [legalFrom, Bool.and_eq_true]
    exact ⟨List.elem_iff.mpr hv, trivial⟩

/-- `legalFrom` splits over list append, threading the tracked state. -/
theorem legalFrom_append (net : ValveNetwork) :
    ∀ (xs ys : List ValveAction) (pos o : Nat),
      legalFrom net pos o (xs ++ ys) =
        (legalFrom net pos o xs &&
          legalFrom net (runTrack pos o xs).1 (runTrack pos o xs).2 ys) := by
  intro xs
  induction xs with
  | nil => intro ys pos o; simp [legalFrom, runTrack]
  | cons a rest ih =>
    intro ys pos o
    cases a with
    | MoveTo v =>
      simp only [List.cons_append, legalFrom, runTrack, List.append_eq, ih,
        Bool.and_assoc]
    | Open =>
      simp only [List.cons_append, legalFrom, runTrack, List.append_eq, ih,
        Bool.and_assoc]

/-- `runTrack` splits over list append. -/
theorem runTrack_append :
    ∀ (xs ys : List ValveAction) (pos o : Nat),
      runTrack pos o (xs ++ ys) =
        runTrack (runTrack pos o xs).1 (runTrack pos o xs).2 ys := by
  intro xs
  induction xs with
  | nil => intro ys pos o; rfl
  | cons a rest ih =>
    intro ys pos o
    cases a with
    | MoveTo v => simp only [List.cons_append, runTrack, List.append_eq, ih]
    | Open => simp only [List.cons_append, runTrack, List.append_eq, ih]

/-- Every search-reachable state's backtracked action chain is
expansion-legal from the start state, tracks exactly to the state's
position and open-set, and has length equal to the state's depth. -/
theorem reaches_spec {net : ValveNetwork} {s : part1.NetworkState}
    (h : part1.Reaches net s) :
    legalFrom net net.start_position 0 s.actionChain = true ∧
    runTrack net.start_position 0 s.actionChain =
      (s.current_position, s.open_valves) ∧
    s.actionChain.length = s.depth := by
  induction h with
  | init => exact ⟨rfl, rfl, rfl⟩
  | step hp hmem ih =>
    obtain ⟨ih1, ih2, ih3⟩ := ih
    obtain ⟨a, rfl, hleg⟩ := expand_inv hmem
    refine ⟨?_, ?_, ?_⟩
    · rw [mkChild_actionChain, legalFrom_append, ih1, ih2]
      simpa using hleg
    · rw [mkChild_actionChain, runTrack_append, ih2]
      cases a <;> rfl
    · rw [mkChild_actionChain, List.length_append, ih3, mkChild_depth]
      rfl

/-- Expansion legality implies the no-bad-`Open` property. -/
theorem legalFrom_goodOpens (net : ValveNetwork) :
    ∀ (acts : List ValveAction) (pos o : Nat),
      legalFrom net pos o acts = true → goodOpens net pos o acts = true := by
  intro acts
  induction acts with
  | nil => intro pos o _; rfl
  | cons a rest ih =>
    intro pos o h
    cases a with
    | MoveTo v =>
      simp only [legalFrom, Bool.and_eq_true] at h
      exact ih v o h.2
    | Open =>
      simp only [legalFrom, Bool.and_eq_true] at h
      simp only [goodOpens, Bool.and_eq_true]
      exact ⟨h.1, ih pos (openValves_open o pos) h.2⟩

/-- Folding legal actions onto a reachable state stays reachable. -/
theorem reaches_foldl {net : ValveNetwork} :
    ∀ (acts : List ValveAction) (s : part1.NetworkState),
      part1.Reaches net s →
      legalFrom net s.current_position s.open_valves acts = true →
      part1.Reaches net (acts.foldl part1.mkChild s) := by
  intro acts
  induction acts with
  | nil => intro s hs _; exact hs
  | cons a rest ih =>
    intro s hs hleg
    cases a with
    | MoveTo v =>
      simp only [legalFrom, Bool.and_eq_true] at hleg
      refine ih (part1.mkChild s (ValveAction.MoveTo v))
        (part1.Reaches.step hs
          (mem_expand_move s net v (List.elem_iff.mp hleg.1))) ?_
      exact hleg.2
    | Open =>
      simp only [legalFrom, Bool.and_eq_true] at hleg
      refine ih (part1.mkChild s ValveAction.Open)
        (part1.Reaches.step hs
          (mem_expand_open s net
            (by simpa using hleg.1.1) (by simpa using hleg.1.2))) ?_
      exact hleg.2

/-- Chains of legal actions from the start are reachable. -/
theorem reaches_chainOf {net : ValveNetwork} (acts : List ValveAction)
    (h : legalFrom net net.start_position 0 acts = true) :
    part1.Reaches net (part1.chainOf net acts) :=
  reaches_foldl acts (part1.initialState net) part1.Reaches.init h

/- ## The degenerate fixture `netZ`: every score is 0 -/

/-- Every flow rate of `netZ` is 0. -/
theorem flowRateOf_netZ (x : Nat) : flowRateOf netZ x = 0 := by
  cases h : (x == (0 : Nat)) <;>
    simp [flowRateOf, netZ, List.lookup, h]

/-- Every open-set flow on `netZ` is 0. -/
theorem openFlow_netZ (o : Nat) : openFlow netZ o = 0 := by
  apply List.sum_eq_zero
  intro x hx
  obtain ⟨y, _, rfl⟩ := List.mem_map.mp hx
  exact flowRateOf_netZ y

/-- A successful `netZ` tick does not change the running total. -/
theorem simTick_netZ_released {st st1 : part1.SimSt}
    {a : Option ValveAction} (h : part1.simTick netZ st a = Except.ok st1) :
    st1.released = st.released := by
  cases a with
  | none =>
    simp only [part1.simTick, Except.ok.injEq] at h
    rw [← h]
    simp [openFlow_netZ]
  | some act =>
    cases act with
    | MoveTo v =>
      simp only [part1.simTick] at h
      split at h
      · simp only [Except.ok.injEq] at h
        rw [← h]
        simp [openFlow_netZ]
      · cases h
    | Open =>
      simp only [part1.simTick, Except.ok.injEq] at h
      rw [← h]
      simp [openFlow_netZ]

/-- A successful `netZ` run does not change the running total. -/
theorem simRun_netZ_released (plan : List ValveAction) :
    ∀ n start (st st' : part1.SimSt),
      part1.simRun netZ plan start n st = Except.ok st' →
      st'.released = st.released := by
  intro n
  induction n with
  | zero =>
    intro start st st' h
    simp only [part1.simRun, Except.ok.injEq] at h
    rw [h]
  | succ n ih =>
    intro start st st' h
    simp only [part1.simRun] at h
    cases htick : part1.simTick netZ st (plan.get? start) with
    | error e => rw [htick] at h; exact absurd h (by simp [Except.bind])
    | ok st1 =>
      rw [htick] at h
      simp only [Except.bind] at h
      rw [ih (start + 1) st1 st' h, simTick_netZ_released htick]

/-- On `netZ` every state's resimulated score is 0, at every horizon. -/
theorem stateScore_netZ (s : part1.NetworkState) (minutes : Nat) :
    part1.stateScore netZ s minutes = 0 := by
  unfold part1.stateScore
  cases hm : part1.total_pressure_released netZ s.actionChain minutes with
  | none => rfl
  | some res =>
    cases res with
    | error e => rfl
    | ok r =>
      rw [part1.total_pressure_released] at hm
      by_cases h0 : minutes = 0
      · rw [if_pos h0] at hm; cases hm
      · rw [if_neg h0] at hm
        injection hm with hm'
        cases hr : part1.simRun netZ s.actionChain 0 (minutes - 1)
            ⟨netZ.start_position, 0, 0⟩ with
        | error e => rw [hr] at hm'; simp [Except.map] at hm'
        | ok st' =>
          rw [hr] at hm'
          simp only [Except.map, Except.ok.injEq] at hm'
          have := simRun_netZ_released s.actionChain (minutes - 1) 0 _ _ hr
          simp only [this] at hm'
          exact hm'.symm

/-- The search on `netZ` with `action_count = minutes = 1` returns the
single shuttling move (all scores are 0, so any depth-1 chain is
maximal). -/
theorem solveReturns_netZ1 :
    part1.SolveReturns netZ 1 1 [ValveAction.MoveTo 0] := by
  refine ⟨part1.chainOf netZ [ValveAction.MoveTo 0],
    reaches_chainOf _ (by decide), rfl, rfl, ?_⟩
  intro s' _ _
  rw [stateScore_netZ, stateScore_netZ]

/-- The search on `netZ` with `action_count = minutes = 2` returns the
double shuttling move. -/
theorem solveReturns_netZ2 :
    part1.SolveReturns netZ 2 2
      [ValveAction.MoveTo 0, ValveAction.MoveTo 0] := by
  refine ⟨part1.chainOf netZ [ValveAction.MoveTo 0, ValveAction.MoveTo 0],
    reaches_chainOf _ (by decide), rfl, rfl, ?_⟩
  intro s' _ _
  rw [stateScore_netZ, stateScore_netZ]

/-- Inversion of dual-agent `expand` membership: every child carries the
parent link, some action pair and the incremented depth. -/
theorem expand_pair_inv {net : ValveNetwork} {p c : part2.NetworkState}
    (h : c ∈ part2.expand p net) :
    ∃ hpos epos ov a,
      c = part2.NetworkState.mk hpos epos ov (some p) (some a)
        (p.depth + 1) := by
  unfold part2.expand at h
  obtain ⟨hea, hmem, heq⟩ := List.mem_filterMap.mp h
  by_cases hc : (hea.1 = ValveAction.Open ∧ hea.2 = ValveAction.Open ∧
      p.human_position = p.elephant_position)
  · rw [if_pos hc] at heq
    cases heq
  · rw [if_neg hc] at heq
    injection heq with heq'
    exact ⟨_, _, _, hea, heq'.symm⟩

/-- Every dual-agent search-reachable state's backtracked action-pair
chain has length equal to the state's depth. -/
theorem reaches_pair_chain_length {net : ValveNetwork}
    {s : part2.NetworkState} (h : part2.Reaches net s) :
    s.actionChain.length = s.depth := by
  induction h with
  | init => rfl
  | step hp hmem ih =>
    obtain ⟨hpos, epos, ov, a, rfl⟩ := expand_pair_inv hmem
    simp only [part2.NetworkState.actionChain, part2.NetworkState.depth,
      Option.toList_some, List.length_append, List.length_cons,
      List.length_nil] at ih ⊢
    omega

/-- The dual-agent search on `netZ` with `action_count = 1` returns the
single pair of shuttling moves. -/
theorem solveReturns_pair_netZ :
    part2.SolveReturns netZ 1
      [(ValveAction.MoveTo 0, ValveAction.MoveTo 0)] := by
  refine ⟨part2.NetworkState.mk 0 0 0 (some (part2.initialState netZ))
    (some (ValveAction.MoveTo 0, ValveAction.MoveTo 0)) 1,
    part2.Reaches.step part2.Reaches.init ?_, rfl, rfl⟩
  rw [show part2.expand (part2.initialState netZ) netZ =
    [part2.NetworkState.mk 0 0 0 (some (part2.initialState netZ))
      (some (ValveAction.MoveTo 0, ValveAction.MoveTo 0)) 1] from rfl]
  exact List.mem_singleton.mpr rfl

/- ## Claims C6 and C7 -/

/-- C6: every plan produced by the exact single-agent search engine,
executed from the start position with an empty open-set, performs no
`Open` at a valve with flow rate 0 and no `Open` at an already-open
valve (the expansion of `part1::NetworkState::expand` never generates
such an `Open`). -/
theorem C6_search_plans_have_good_opens :
    ∀ net action_count minutes (plan : List ValveAction),
      part1.SolveReturns net action_count minutes plan →
      goodOpens net net.start_position 0 plan = true := by
  rintro net ac minutes plan ⟨s, hr, _, rfl, _⟩
  exact legalFrom_goodOpens net _ _ _ (reaches_spec hr).1

/-- Witness for C6 at a concrete input. -/
theorem C6_search_plans_have_good_opens_witness :
    part1.SolveReturns netZ 1 1 [ValveAction.MoveTo 0] ∧
    goodOpens netZ netZ.start_position 0 [ValveAction.MoveTo 0] = true :=
  ⟨solveReturns_netZ1,
    C6_search_plans_have_good_opens netZ 1 1 _ solveReturns_netZ1⟩

/-- C7 counterexample: `solve` is invoked (in `main` and in the tests)
with `action_count = minutes`; on `netZ` with
`action_count = minutes = 2` it returns the plan
`[MoveTo 0, MoveTo 0]`, whose length is 2 = horizon, not
horizon − 1 = 1. -/
theorem C7_counterexample_plan_length :
    part1.SolveReturns netZ 2 2
      [ValveAction.MoveTo 0, ValveAction.MoveTo 0] ∧
    ¬ ([ValveAction.MoveTo 0, ValveAction.MoveTo 0].length = 2 - 1) :=
  ⟨solveReturns_netZ2, by decide⟩

/-- C7 amended: every plan returned by a search engine — single- or
dual-agent — is produced by backtracking parent links from a terminal
state with `depth = action_count`, and its length is exactly
`action_count` — which equals the horizon (not horizon − 1) under the
`action_count = minutes` invocations in `main` and the tests; the
simulator then executes only the first horizon − 1 of its actions. -/
theorem C7_plan_length_is_action_count :
    (∀ net action_count minutes (plan : List ValveAction),
      part1.SolveReturns net action_count minutes plan →
      plan.length = action_count) ∧
    (∀ net action_count (plan : List (ValveAction × ValveAction)),
      part2.SolveReturns net action_count plan →
      plan.length = action_count) := by
  constructor
  · rintro net ac minutes plan ⟨s, hr, hd, rfl, _⟩
    rw [(reaches_spec hr).2.2, hd]
  · rintro net ac plan ⟨s, hr, hd, rfl⟩
    rw [reaches_pair_chain_length hr, hd]

/-- Witness for C7's amended theorem at concrete inputs, one per
engine. -/
theorem C7_plan_length_is_action_count_witness :
    (part1.SolveReturns netZ 1 1 [ValveAction.MoveTo 0] ∧
      [ValveAction.MoveTo 0].length = 1) ∧
    (part2.SolveReturns netZ 1
        [(ValveAction.MoveTo 0, ValveAction.MoveTo 0)] ∧
      [(ValveAction.MoveTo 0, ValveAction.MoveTo 0)].length = 1) :=
  ⟨⟨solveReturns_netZ1,
      C7_plan_length_is_action_count.1 netZ 1 1 _ solveReturns_netZ1⟩,
    ⟨solveReturns_pair_netZ,
      C7_plan_length_is_action_count.2 netZ 1 _ solveReturns_pair_netZ⟩⟩

/- ## Bound-table lemmas -/

/-- Every member of a list is at most its max-fold. -/
theorem le_foldr_max : ∀ (l : List Nat) (x : Nat), x ∈ l →
    x ≤ l.foldr Nat.max 0 := by
  intro l
  induction l with
  | nil => intro x hx; cases hx
  | cons hd tl ih =>
    intro x hx
    rcases List.mem_cons.mp hx with rfl | hx
    · exact Nat.le_max_left _ _
    · exact le_trans (ih x hx) (Nat.le_max_right _ _)

/-- A max-fold is bounded by any bound on the members. -/
theorem foldr_max_le : ∀ (l : List Nat) (b : Nat), (∀ x ∈ l, x ≤ b) →
    l.foldr Nat.max 0 ≤ b := by
  intro l
  induction l with
  | nil => intro b _; exact Nat.zero_le b
  | cons hd tl ih =>
    intro b h
    exact Nat.max_le.mpr ⟨h hd (List.mem_cons_self hd tl),
      ih b (fun x hx => h x (List.mem_cons_of_mem hd hx))⟩

/-- A packed list of 16-bit values fits below `65536 ^ length`. -/
theorem pack16_lt : ∀ l : List Nat, (∀ x ∈ l, x < 65536) →
    pack16 l < 65536 ^ l.length := by
  intro l
  induction l with
  | nil => simpa [pack16] using Nat.one_pos
  | cons x tl ih =>
    intro h
    have hx : x < 65536 := h x (List.mem_cons_self x tl)
    have hP : pack16 tl < 65536 ^ tl.length :=
      ih (fun y hy => h y (List.mem_cons_of_mem x hy))
    rw [show pack16 (x :: tl) = x + pack16 tl * 65536 from rfl,
      List.length_cons]
    calc x + pack16 tl * 65536 < 65536 + pack16 tl * 65536 := by omega
      _ = (pack16 tl + 1) * 65536 := by ring
      _ ≤ 65536 ^ tl.length * 65536 := Nat.mul_le_mul_right _ (by omega)
      _ = 65536 ^ (tl.length + 1) := (pow_succ 65536 tl.length).symm

/-- Field extraction from a packed list of 16-bit values. -/
theorem field16_pack16 : ∀ (l : List Nat), (∀ x ∈ l, x < 65536) →
    ∀ i, i < l.length → field16 (pack16 l) i = l.getD i 0 := by
  intro l
  induction l with
  | nil => intro _ i hi; cases hi
  | cons x tl ih =>
    intro h i hi
    have hx : x < 65536 := h x (List.mem_cons_self x tl)
    cases i with
    | zero =>
      rw [show pack16 (x :: tl) = x + pack16 tl * 65536 from rfl]
      show (x + pack16 tl * 65536) / 65536 ^ 0 % 65536 = x
      rw [pow_zero, Nat.div_one, Nat.add_mul_mod_self_right,
        Nat.mod_eq_of_lt hx]
    | succ i =>
      have hi' : i < tl.length := by
        simp only [List.length_cons] at hi; omega
      rw [show pack16 (x :: tl) = x + pack16 tl * 65536 from rfl]
      show (x + pack16 tl * 65536) / 65536 ^ (i + 1) % 65536 =
        (x :: tl).getD (i + 1) 0
      have h1 : (x + pack16 tl * 65536) / 65536 = pack16 tl := by
        rw [Nat.add_mul_div_right _ _ (by norm_num : 0 < 65536),
          Nat.div_eq_of_lt hx, Nat.zero_add]
      have h2 : (x + pack16 tl * 65536) / 65536 ^ (i + 1) =
          pack16 tl / 65536 ^ i := by
        rw [pow_succ', ← Nat.div_div_eq_div_mul, h1]
      rw [h2]
      exact ih (fun y hy => h y (List.mem_cons_of_mem x hy)) i hi'

/-- `getD` of a mapped range. -/
theorem getD_range_map (f : Nat → Nat) (n i : Nat) (h : i < n) :
    ((List.range n).map f).getD i 0 = f i := by
  rw [show ((List.range n).map f).getD i 0 =
    (((List.range n).map f).get? i).getD 0 from rfl,
    List.get?_map, List.get?_range h]
  rfl

/-- The per-mask flows of `sampleNet` are at most the total flow 81. -/
theorem flowE_le : ∀ e, e < 64 → flowE e ≤ 81 := by decide

/-- The compressed-mask index is always below 64. -/
theorem encodeMask_lt (m : Nat) : encodeMask m < 64 := by
  unfold encodeMask
  have h1 : (m >>> 1) &&& 1 ≤ 1 := Nat.and_le_right
  have h2 : (m >>> 2) &&& 1 ≤ 1 := Nat.and_le_right
  have h3 : (m >>> 3) &&& 1 ≤ 1 := Nat.and_le_right
  have h4 : (m >>> 4) &&& 1 ≤ 1 := Nat.and_le_right
  have h5 : (m >>> 7) &&& 1 ≤ 1 := Nat.and_le_right
  have h6 : (m >>> 9) &&& 1 ≤ 1 := Nat.and_le_right
  omega

/-- A backup entry grows by at most one tick of total flow. -/
theorem bEntry_le (T M i : Nat) (hT : ∀ j, field16 T j ≤ M) :
    bEntry T i ≤ 81 + M := by
  unfold bEntry
  apply foldr_max_le
  intro x hx
  have he : i % 64 < 64 := Nat.mod_lt _ (by norm_num)
  rcases List.mem_cons.mp hx with rfl | hx
  · exact Nat.add_le_add (flowE_le _ he) (hT i)
  rcases List.mem_append.mp hx with hx | hx
  · by_cases hcond : (!(openValves_is_open (spread (i % 64)) (i / 64)) &&
        decide (0 < flowRateOf sampleNet (i / 64))) = true
    · rw [if_pos hcond] at hx
      rw [List.mem_singleton.mp hx]
      exact Nat.add_le_add (flowE_le _ (encodeMask_lt _)) (hT _)
    · rw [if_neg hcond] at hx
      cases hx
  · obtain ⟨v, _, rfl⟩ := List.mem_map.mp hx
    exact Nat.add_le_add (flowE_le _ he) (hT _)

/-- All fields of the `t`-th bound table are at most `81 * t`. -/
theorem tableBounded : ∀ t, t ≤ 800 → ∀ i, field16 (btab t) i ≤ 81 * t := by
  intro t
  induction t with
  | zero => intro _ i; simp [btab, field16]
  | succ t ih =>
    intro ht i
    have hlt : ∀ x ∈ (List.range 640).map (bEntry (btab t)), x < 65536 := by
      intro x hx
      obtain ⟨j, _, rfl⟩ := List.mem_map.mp hx
      have := bEntry_le (btab t) (81 * t) j (ih (by omega))
      omega
    have hlen : ((List.range 640).map (bEntry (btab t))).length = 640 := by
      simp
    by_cases hi : i < 640
    · rw [show btab (t + 1) =
        pack16 ((List.range 640).map (bEntry (btab t))) from rfl,
        field16_pack16 _ hlt i (by omega), getD_range_map _ _ _ hi]
      have := bEntry_le (btab t) (81 * t) i (ih (by omega))
      omega
    · have hP := pack16_lt _ hlt
      rw [hlen] at hP
      rw [show btab (t + 1) =
        pack16 ((List.range 640).map (bEntry (btab t))) from rfl]
      unfold field16
      rw [Nat.div_eq_of_lt
        (lt_of_lt_of_le hP (Nat.pow_le_pow_right (by norm_num) (by omega)))]
      simp

/-- Inside the index range, the next table's field is exactly the backup
of the previous table. -/
theorem field16_btab_succ (t : Nat) (ht : t ≤ 799) (i : Nat)
    (hi : i < 640) : field16 (btab (t + 1)) i = bEntry (btab t) i := by
  have hlt : ∀ x ∈ (List.range 640).map (bEntry (btab t)), x < 65536 := by
    intro x hx
    obtain ⟨j, _, rfl⟩ := List.mem_map.mp hx
    have := bEntry_le (btab t) (81 * t) j (tableBounded t (by omega))
    omega
  rw [show btab (t + 1) =
    pack16 ((List.range 640).map (bEntry (btab t))) from rfl,
    field16_pack16 _ hlt i (by simpa using hi), getD_range_map _ _ _ hi]

/-- The stay candidate bounds a backup entry from below. -/
theorem bEntry_ge_noop (T i : Nat) :
    flowE (i % 64) + field16 T i ≤ bEntry T i :=
  le_foldr_max _ _ (List.mem_cons_self _ _)

/-- The open candidate bounds a backup entry from below when the
expansion guard holds. -/
theorem bEntry_ge_open (T i : Nat)
    (h : (!(openValves_is_open (spread (i % 64)) (i / 64)) &&
      decide (0 < flowRateOf sampleNet (i / 64))) = true) :
    flowE (encodeMask (openValves_open (spread (i % 64)) (i / 64))) +
      field16 T ((i / 64) * 64 +
        encodeMask (openValves_open (spread (i % 64)) (i / 64))) ≤
      bEntry T i := by
  apply le_foldr_max
  apply List.mem_cons_of_mem
  apply List.mem_append_left
  rw [if_pos h]
  exact List.mem_singleton.mpr rfl

/-- Each move candidate bounds a backup entry from below. -/
theorem bEntry_ge_move (T i v : Nat) (hv : v ∈ edgesOf sampleNet (i / 64)) :
    flowE (i % 64) + field16 T (v * 64 + i % 64) ≤ bEntry T i := by
  apply le_foldr_max
  apply List.mem_cons_of_mem
  exact List.mem_append_right _ (List.mem_map.mpr ⟨v, hv, rfl⟩)

/- ## Concrete facts about `sampleNet` masks and flows -/

set_option maxRecDepth 100000

/-- On good open-sets (subsets of the positive-flow valves 1,2,3,4,7,9)
the open flow agrees with the precomputed compressed-mask flow table. -/
theorem sample_flowE_eq : ∀ o, o < 671 → o ||| 670 = 670 →
    openFlow sampleNet o = flowE (encodeMask o) := by decide

/-- Compression of good open-sets is lossless. -/
theorem sample_spread_encode : ∀ o, o < 671 → o ||| 670 = 670 →
    spread (encodeMask o) = o := by decide

/-- Opening any positive-flow valve of `sampleNet` preserves goodness of
the open-set. -/
theorem sample_open_good : ∀ o, o < 671 → o ||| 670 = 670 →
    (openValves_open o 1 < 671 ∧ openValves_open o 1 ||| 670 = 670) ∧
    (openValves_open o 2 < 671 ∧ openValves_open o 2 ||| 670 = 670) ∧
    (openValves_open o 3 < 671 ∧ openValves_open o 3 ||| 670 = 670) ∧
    (openValves_open o 4 < 671 ∧ openValves_open o 4 ||| 670 = 670) ∧
    (openValves_open o 7 < 671 ∧ openValves_open o 7 ||| 670 = 670) ∧
    (openValves_open o 9 < 671 ∧ openValves_open o 9 ||| 670 = 670) := by
  decide

/-- Identifiers ≥ 10 have no flow entry in `sampleNet`. -/
theorem sample_flow_hi (p : Nat) (hp : 10 ≤ p) :
    flowRateOf sampleNet p = 0 := by
  unfold flowRateOf
  rw [lookup_eq_none_of_not_mem]
  · rfl
  · intro hmem
    simp [sampleNet] at hmem
    omega

/-- The positive-flow valves of `sampleNet` are exactly 1,2,3,4,7,9. -/
theorem sample_flow_pos (p : Nat) (hp : 0 < flowRateOf sampleNet p) :
    p = 1 ∨ p = 2 ∨ p = 3 ∨ p = 4 ∨ p = 7 ∨ p = 9 := by
  by_cases h : p < 10
  · exact (by decide : ∀ q, q < 10 → 0 < flowRateOf sampleNet q →
      (q = 1 ∨ q = 2 ∨ q = 3 ∨ q = 4 ∨ q = 7 ∨ q = 9)) p h hp
  · rw [sample_flow_hi p (by omega)] at hp
    omega

/-- Identifiers ≥ 10 have no adjacency entry in `sampleNet`. -/
theorem sample_edges_hi (p : Nat) (hp : 10 ≤ p) :
    edgesOf sampleNet p = [] := by
  unfold edgesOf
  rw [lookup_eq_none_of_not_mem]
  · rfl
  · intro hmem
    simp [sampleNet] at hmem
    omega

/-- All tunnel targets of `sampleNet` are valid identifiers. -/
theorem sample_edges_lt (p v : Nat) (hv : v ∈ edgesOf sampleNet p) :
    v < 10 := by
  by_cases h : p < 10
  · exact (by decide : ∀ q, q < 10 → ∀ w ∈ edgesOf sampleNet q, w < 10)
      p h v hv
  · rw [sample_edges_hi p (by omega)] at hv
    cases hv

/- ## The main bound: no legal action sequence on `sampleNet` beats the
bound table -/

/-- From any valid position and good open-set, a run of `n` ticks whose
remaining actions are expansion-legal succeeds and releases at most the
bound-table entry for `n` remaining ticks. -/
theorem sample_bound : ∀ n, n ≤ 800 →
    ∀ (plan : List ValveAction) (start p o r : Nat),
      p < 10 → o < 671 → o ||| 670 = 670 →
      legalFrom sampleNet p o (plan.drop start) = true →
      ∃ st', part1.simRun sampleNet plan start n ⟨p, o, r⟩ = Except.ok st' ∧
        st'.released ≤ r + field16 (btab n) (p * 64 + encodeMask o) := by
  intro n
  induction n with
  | zero =>
    intro _ plan start p o r _ _ _ _
    exact ⟨⟨p, o, r⟩, rfl, Nat.le_add_right r _⟩
  | succ n ih =>
    intro hn plan start p o r hp ho1 ho2 hleg
    have he : encodeMask o < 64 := encodeMask_lt o
    have hidx1 : (p * 64 + encodeMask o) / 64 = p := by omega
    have hidx2 : (p * 64 + encodeMask o) % 64 = encodeMask o := by omega
    have hflow : openFlow sampleNet o = flowE (encodeMask o) :=
      sample_flowE_eq o ho1 ho2
    cases hget : plan.get? start with
    | none =>
      have hdrop : plan.drop (start + 1) = [] :=
        List.drop_eq_nil_of_le (by
          have := List.get?_eq_none.mp hget; omega)
      obtain ⟨st', hrun, hle⟩ := ih (by omega) plan (start + 1) p o
        (r + openFlow sampleNet o) hp ho1 ho2 (by rw [hdrop]; rfl)
      refine ⟨st', ?_, ?_⟩
      · simp only [part1.simRun, hget, part1.simTick, Except.bind]
        exact hrun
      · have hstep : flowE (encodeMask o) +
            field16 (btab n) (p * 64 + encodeMask o) ≤
            field16 (btab (n + 1)) (p * 64 + encodeMask o) := by
          have hno := bEntry_ge_noop (btab n) (p * 64 + encodeMask o)
          rw [hidx2] at hno
          rw [field16_btab_succ n (by omega) _ (by omega)]
          exact hno
        omega
    | some a =>
      have hlt : start < plan.length := by
        by_contra hcon
        rw [List.get?_eq_none.mpr (by omega)] at hget
        cases hget
      have hdrop : plan.drop start = a :: plan.drop (start + 1) := by
        have hg := List.get?_eq_get (l := plan) hlt
        rw [hget] at hg
        injection hg with hg'
        rw [List.drop_eq_get_cons hlt, ← hg']
      rw [hdrop] at hleg
      cases a with
      | MoveTo v =>
        rw [show legalFrom sampleNet p o
            (ValveAction.MoveTo v :: plan.drop (start + 1)) =
          ((edgesOf sampleNet p).contains v &&
            legalFrom sampleNet v o (plan.drop (start + 1))) from rfl,
          Bool.and_eq_true] at hleg
        obtain ⟨hcv, hrest⟩ := hleg
        have hvmem : v ∈ edgesOf sampleNet p := List.elem_iff.mp hcv
        have hv10 : v < 10 := sample_edges_lt p v hvmem
        obtain ⟨st', hrun, hle⟩ := ih (by omega) plan (start + 1) v o
          (r + openFlow sampleNet o) hv10 ho1 ho2 hrest
        refine ⟨st', ?_, ?_⟩
        · simp only [part1.simRun, hget, part1.simTick]
          rw [if_pos hcv]
          simp only [Except.bind]
          exact hrun
        · have hstep : flowE (encodeMask o) +
              field16 (btab n) (v * 64 + encodeMask o) ≤
              field16 (btab (n + 1)) (p * 64 + encodeMask o) := by
            have hmv := bEntry_ge_move (btab n) (p * 64 + encodeMask o) v
              (by rw [hidx1]; exact hvmem)
            rw [hidx2] at hmv
            rw [field16_btab_succ n (by omega) _ (by omega)]
            exact hmv
          omega
      | Open =>
        rw [show legalFrom sampleNet p o
            (ValveAction.Open :: plan.drop (start + 1)) =
          (!(openValves_is_open o p) && decide (0 < flowRateOf sampleNet p) &&
            legalFrom sampleNet p (openValves_open o p)
              (plan.drop (start + 1))) from rfl,
          Bool.and_eq_true, Bool.and_eq_true, Bool.not_eq_true',
          decide_eq_true_eq] at hleg
        obtain ⟨⟨hio, hfl⟩, hrest⟩ := hleg
        have hog := sample_open_good o ho1 ho2
        have ho' : openValves_open o p < 671 ∧
            openValves_open o p ||| 670 = 670 := by
          rcases sample_flow_pos p hfl with rfl | rfl | rfl | rfl | rfl | rfl
          · exact hog.1
          · exact hog.2.1
          · exact hog.2.2.1
          · exact hog.2.2.2.1
          · exact hog.2.2.2.2.1
          · exact hog.2.2.2.2.2
        obtain ⟨st', hrun, hle⟩ := ih (by omega) plan (start + 1) p
          (openValves_open o p)
          (r + openFlow sampleNet (openValves_open o p)) hp ho'.1 ho'.2 hrest
        refine ⟨st', ?_, ?_⟩
        · simp only [part1.simRun, hget, part1.simTick, Except.bind]
          exact hrun
        · have hflow' : openFlow sampleNet (openValves_open o p) =
              flowE (encodeMask (openValves_open o p)) :=
            sample_flowE_eq _ ho'.1 ho'.2
          have hguard :
              (!(openValves_is_open
                  (spread ((p * 64 + encodeMask o) % 64))
                  ((p * 64 + encodeMask o) / 64)) &&
                decide (0 < flowRateOf sampleNet
                  ((p * 64 + encodeMask o) / 64))) = true := by
            rw [hidx1, hidx2, sample_spread_encode o ho1 ho2]
            simp [hio, hfl]
          have hop := bEntry_ge_open (btab n) (p * 64 + encodeMask o) hguard
          rw [hidx1, hidx2, sample_spread_encode o ho1 ho2] at hop
          have hstep : flowE (encodeMask (openValves_open o p)) +
              field16 (btab n) (p * 64 + encodeMask (openValves_open o p)) ≤
              field16 (btab (n + 1)) (p * 64 + encodeMask o) := by
            rw [field16_btab_succ n (by omega) _ (by omega)]
            exact hop
          omega

set_option maxHeartbeats 4000000
set_option exponentiation.threshold 2000

/-- A state's score is the `Ok` payload of its resimulation. -/
theorem stateScore_eq (net : ValveNetwork) (s : part1.NetworkState)
    (minutes r : Nat)
    (h : part1.total_pressure_released net s.actionChain minutes =
      some (Except.ok r)) :
    part1.stateScore net s minutes = r := by
  unfold part1.stateScore
  rw [h]

/-- One checked backup sweep. -/
theorem bStep_lit0 : bStep 0 = btabL1 := by decide

/-- One checked backup sweep. -/
theorem bStep_lit1 : bStep btabL1 = btabL2 := by decide

/-- One checked backup sweep. -/
theorem bStep_lit2 : bStep btabL2 = btabL3 := by decide

/-- One checked backup sweep. -/
theorem bStep_lit3 : bStep btabL3 = btabL4 := by decide

/-- One checked backup sweep. -/
theorem bStep_lit4 : bStep btabL4 = btabL5 := by decide

/-- One checked backup sweep. -/
theorem bStep_lit5 : bStep btabL5 = btabL6 := by decide

/-- One checked backup sweep. -/
theorem bStep_lit6 : bStep btabL6 = btabL7 := by decide

/-- One checked backup sweep. -/
theorem bStep_lit7 : bStep btabL7 = btabL8 := by decide

/-- One checked backup sweep. -/
theorem bStep_lit8 : bStep btabL8 = btabL9 := by decide

/-- One checked backup sweep. -/
theorem bStep_lit9 : bStep btabL9 = btabL10 := by decide

/-- One checked backup sweep. -/
theorem bStep_lit10 : bStep btabL10 = btabL11 := by decide

/-- One checked backup sweep. -/
theorem bStep_lit11 : bStep btabL11 = btabL12 := by decide

/-- One checked backup sweep. -/
theorem bStep_lit12 : bStep btabL12 = btabL13 := by decide

/-- One checked backup sweep. -/
theorem bStep_lit13 : bStep btabL13 = btabL14 := by decide

/-- One checked backup sweep. -/
theorem bStep_lit14 : bStep btabL14 = btabL15 := by decide

/-- One checked backup sweep. -/
theorem bStep_lit15 : bStep btabL15 = btabL16 := by decide

/-- One checked backup sweep. -/
theorem bStep_lit16 : bStep btabL16 = btabL17 := by decide

/-- One checked backup sweep. -/
theorem bStep_lit17 : bStep btabL17 = btabL18 := by decide

/-- One checked backup sweep. -/
theorem bStep_lit18 : bStep btabL18 = btabL19 := by decide

/-- One checked backup sweep. -/
theorem bStep_lit19 : bStep btabL19 = btabL20 := by decide

/-- One checked backup sweep. -/
theorem bStep_lit20 : bStep btabL20 = btabL21 := by decide

/-- One checked backup sweep. -/
theorem bStep_lit21 : bStep btabL21 = btabL22 := by decide

/-- One checked backup sweep. -/
theorem bStep_lit22 : bStep btabL22 = btabL23 := by decide

/-- One checked backup sweep. -/
theorem bStep_lit23 : bStep btabL23 = btabL24 := by decide

/-- One checked backup sweep. -/
theorem bStep_lit24 : bStep btabL24 = btabL25 := by decide

/-- One checked backup sweep. -/
theorem bStep_lit25 : bStep btabL25 = btabL26 := by decide

/-- One checked backup sweep. -/
theorem bStep_lit26 : bStep btabL26 = btabL27 := by decide

/-- One checked backup sweep. -/
theorem bStep_lit27 : bStep btabL27 = btabL28 := by decide

/-- One checked backup sweep. -/
theorem bStep_lit28 : bStep btabL28 = btabL29 := by decide

/-- The recursive table agrees with the literal. -/
theorem btab_eq1 : btab 1 = btabL1 := bStep_lit0

/-- The recursive table agrees with the literal. -/
theorem btab_eq2 : btab 2 = btabL2 := by
  rw [show btab 2 = bStep (btab 1) from rfl, btab_eq1]
  exact bStep_lit1

/-- The recursive table agrees with the literal. -/
theorem btab_eq3 : btab 3 = btabL3 := by
  rw [show btab 3 = bStep (btab 2) from rfl, btab_eq2]
  exact bStep_lit2

/-- The recursive table agrees with the literal. -/
theorem btab_eq4 : btab 4 = btabL4 := by
  rw [show btab 4 = bStep (btab 3) from rfl, btab_eq3]
  exact bStep_lit3

/-- The recursive table agrees with the literal. -/
theorem btab_eq5 : btab 5 = btabL5 := by
  rw [show btab 5 = bStep (btab 4) from rfl, btab_eq4]
  exact bStep_lit4

/-- The recursive table agrees with the literal. -/
theorem btab_eq6 : btab 6 = btabL6 := by
  rw [show btab 6 = bStep (btab 5) from rfl, btab_eq5]
  exact bStep_lit5

/-- The recursive table agrees with the literal. -/
theorem btab_eq7 : btab 7 = btabL7 := by
  rw [show btab 7 = bStep (btab 6) from rfl, btab_eq6]
  exact bStep_lit6

/-- The recursive table agrees with the literal. -/
theorem btab_eq8 : btab 8 = btabL8 := by
  rw [show btab 8 = bStep (btab 7) from rfl, btab_eq7]
  exact bStep_lit7

/-- The recursive table agrees with the literal. -/
theorem btab_eq9 : btab 9 = btabL9 := by
  rw [show btab 9 = bStep (btab 8) from rfl, btab_eq8]
  exact bStep_lit8

/-- The recursive table agrees with the literal. -/
theorem btab_eq10 : btab 10 = btabL10 := by
  rw [show btab 10 = bStep (btab 9) from rfl, btab_eq9]
  exact bStep_lit9

/-- The recursive table agrees with the literal. -/
theorem btab_eq11 : btab 11 = btabL11 := by
  rw [show btab 11 = bStep (btab 10) from rfl, btab_eq10]
  exact bStep_lit10

/-- The recursive table agrees with the literal. -/
theorem btab_eq12 : btab 12 = btabL12 := by
  rw [show btab 12 = bStep (btab 11) from rfl, btab_eq11]
  exact bStep_lit11

/-- The recursive table agrees with the literal. -/
theorem btab_eq13 : btab 13 = btabL13 := by
  rw [show btab 13 = bStep (btab 12) from rfl, btab_eq12]
  exact bStep_lit12

/-- The recursive table agrees with the literal. -/
theorem btab_eq14 : btab 14 = btabL14 := by
  rw [show btab 14 = bStep (btab 13) from rfl, btab_eq13]
  exact bStep_lit13

/-- The recursive table agrees with the literal. -/
theorem btab_eq15 : btab 15 = btabL15 := by
  rw [show btab 15 = bStep (btab 14) from rfl, btab_eq14]
  exact bStep_lit14

/-- The recursive table agrees with the literal. -/
theorem btab_eq16 : btab 16 = btabL16 := by
  rw [show btab 16 = bStep (btab 15) from rfl, btab_eq15]
  exact bStep_lit15

/-- The recursive table agrees with the literal. -/
theorem btab_eq17 : btab 17 = btabL17 := by
  rw [show btab 17 = bStep (btab 16) from rfl, btab_eq16]
  exact bStep_lit16

/-- The recursive table agrees with the literal. -/
theorem btab_eq18 : btab 18 = btabL18 := by
  rw [show btab 18 = bStep (btab 17) from rfl, btab_eq17]
  exact bStep_lit17

/-- The recursive table agrees with the literal. -/
theorem btab_eq19 : btab 19 = btabL19 := by
  rw [show btab 19 = bStep (btab 18) from rfl, btab_eq18]
  exact bStep_lit18

/-- The recursive table agrees with the literal. -/
theorem btab_eq20 : btab 20 = btabL20 := by
  rw [show btab 20 = bStep (btab 19) from rfl, btab_eq19]
  exact bStep_lit19

/-- The recursive table agrees with the literal. -/
theorem btab_eq21 : btab 21 = btabL21 := by
  rw [show btab 21 = bStep (btab 20) from rfl, btab_eq20]
  exact bStep_lit20

/-- The recursive table agrees with the literal. -/
theorem btab_eq22 : btab 22 = btabL22 := by
  rw [show btab 22 = bStep (btab 21) from rfl, btab_eq21]
  exact bStep_lit21

/-- The recursive table agrees with the literal. -/
theorem btab_eq23 : btab 23 = btabL23 := by
  rw [show btab 23 = bStep (btab 22) from rfl, btab_eq22]
  exact bStep_lit22

/-- The recursive table agrees with the literal. -/
theorem btab_eq24 : btab 24 = btabL24 := by
  rw [show btab 24 = bStep (btab 23) from rfl, btab_eq23]
  exact bStep_lit23

/-- The recursive table agrees with the literal. -/
theorem btab_eq25 : btab 25 = btabL25 := by
  rw [show btab 25 = bStep (btab 24) from rfl, btab_eq24]
  exact bStep_lit24

/-- The recursive table agrees with the literal. -/
theorem btab_eq26 : btab 26 = btabL26 := by
  rw [show btab 26 = bStep (btab 25) from rfl, btab_eq25]
  exact bStep_lit25

/-- The recursive table agrees with the literal. -/
theorem btab_eq27 : btab 27 = btabL27 := by
  rw [show btab 27 = bStep (btab 26) from rfl, btab_eq26]
  exact bStep_lit26

/-- The recursive table agrees with the literal. -/
theorem btab_eq28 : btab 28 = btabL28 := by
  rw [show btab 28 = bStep (btab 27) from rfl, btab_eq27]
  exact bStep_lit27

/-- The recursive table agrees with the literal. -/
theorem btab_eq29 : btab 29 = btabL29 := by
  rw [show btab 29 = bStep (btab 28) from rfl, btab_eq28]
  exact bStep_lit28

/-- The bound table's root entry (29 remaining ticks, start position,
empty open-set) is exactly 1651. -/
theorem btab_root :
    field16 (btab 29) (sampleNet.start_position * 64 + encodeMask 0) =
      1651 := by
  rw [btab_eq29]
  decide

/-- No search-reachable terminal state of `sampleNet` at
`action_count = 30` scores above 1651 at horizon 30. -/
theorem sample_score_le (s : part1.NetworkState)
    (hr : part1.Reaches sampleNet s) (hd : s.depth = 30) :
    part1.stateScore sampleNet s 30 ≤ 1651 := by
  obtain ⟨hleg, _, _⟩ := reaches_spec hr
  obtain ⟨st', hrun, hle⟩ := sample_bound 29 (by omega) s.actionChain 0
    sampleNet.start_position 0 0 (by decide) (by decide) (by decide)
    (by rw [List.drop_zero]; exact hleg)
  have htpr : part1.total_pressure_released sampleNet s.actionChain 30 =
      some (Except.ok st'.released) := by
    rw [part1.total_pressure_released, if_neg (by omega),
      show (30 : Nat) - 1 = 29 from rfl, hrun]
    rfl
  rw [stateScore_eq sampleNet s 30 st'.released htpr]
  have hroot := btab_root
  omega

/-- The 30-action extension of the reference plan is a terminal chain of
maximal score: `solve` on `sampleNet` with
`action_count = minutes = 30` returns it (or an equal-scoring chain). -/
theorem sample_solveReturns :
    part1.SolveReturns sampleNet 30 30 sampleBestActs := by
  refine ⟨part1.chainOf sampleNet sampleBestActs,
    reaches_chainOf _ (by decide), rfl, rfl, ?_⟩
  intro s' hr' hd'
  have h1651 : part1.stateScore sampleNet
      (part1.chainOf sampleNet sampleBestActs) 30 = 1651 := by rfl
  rw [h1651]
  exact sample_score_le s' hr' hd'

/-- C2: on the canonical sample network, every plan the exact
single-agent search can return at horizon 30 simulates to a total
release of exactly 1651 (1651 is attainable by a reachable terminal
chain and, by the bound table, unbeatable); and the published known-good
dual-agent action sequence, fed directly to the dual-agent simulator at
horizon 26, yields a total release of 1707. -/
theorem C2_reference_scenario :
    (∀ plan, part1.SolveReturns sampleNet 30 30 plan →
      part1.total_pressure_released sampleNet plan 30 =
        some (Except.ok 1651)) ∧
    part2.total_pressure_released sampleNet samplePlanPart2 26 =
      some (Except.ok 1707) := by
  constructor
  · rintro plan ⟨s, hr, hd, rfl, hmax⟩
    obtain ⟨hleg, _, _⟩ := reaches_spec hr
    obtain ⟨st', hrun, hle⟩ := sample_bound 29 (by omega) s.actionChain 0
      sampleNet.start_position 0 0 (by decide) (by decide) (by decide)
      (by rw [List.drop_zero]; exact hleg)
    have htpr : part1.total_pressure_released sampleNet s.actionChain 30 =
        some (Except.ok st'.released) := by
      rw [part1.total_pressure_released, if_neg (by omega),
        show (30 : Nat) - 1 = 29 from rfl, hrun]
      rfl
    have hsc : part1.stateScore sampleNet s 30 = st'.released :=
      stateScore_eq sampleNet s 30 st'.released htpr
    have hge := hmax (part1.chainOf sampleNet sampleBestActs)
      (reaches_chainOf _ (by decide)) rfl
    have h1651 : part1.stateScore sampleNet
        (part1.chainOf sampleNet sampleBestActs) 30 = 1651 := by rfl
    have hroot := btab_root
    rw [htpr]
    have hfin : st'.released = 1651 := by omega
    rw [hfin]
  · rfl

/-- Witness for C2's universally quantified conjunct at a concrete
input. -/
theorem C2_reference_scenario_witness :
    part1.SolveReturns sampleNet 30 30 sampleBestActs ∧
    part1.total_pressure_released sampleNet sampleBestActs 30 =
      some (Except.ok 1651) :=
  ⟨sample_solveReturns,
    C2_reference_scenario.1 sampleBestActs sample_solveReturns⟩
